import Mathlib

/-!
# SAP Advanced Event Mesh demo: e-commerce publisher and subscriber

A shallow embedding of `src/config.js`, `src/ecommerce-publisher.js` and
`src/ecommerce-subscriber.js`.

Conventions of the embedding.

* JavaScript numbers that hold prices and amounts are values of an arbitrary
  type `α` carrying `+`, `*`, `0` and a cast from the integers, with no laws
  assumed: every statement proved for all `α` holds for IEEE doubles as well as
  for exact rationals. Stock levels and random integers are integers.
* `Math.random()` is an explicit input: `rand k` is the `k`-th draw of one
  invocation, a double in `[0, 1)` given as the rational it denotes. The
  arithmetic of `getRandomInt` on it is double arithmetic, rounding included.
* The clock is an explicit input: `now k` is the instant (milliseconds) read by
  the `k`-th `new Date()` / `Date.now()` expression of a function, counted in
  source order. The ISO rendering of an instant is not modelled; a timestamp is
  the instant itself.
* `console.log` output is returned as a list of lines.
* The Solace session is an external collaborator: each call of `send`,
  `subscribe`, `unsubscribe`, `disconnect` either is accepted or throws a text,
  and that outcome is an input of the operation making the call.
* A `simulate*` function returns the calls it makes to
  `publisher.publishEvent`, in order; `publishEvent` itself (the session guard
  and `session.send`) is embedded separately.
-/

namespace EcommerceMesh

/-! ## `src/config.js` -/

namespace config.topics

namespace orders
def base : String := "ecommerce/orders"
def created : String := "ecommerce/orders/created"
def updated : String := "ecommerce/orders/updated"
def cancelled : String := "ecommerce/orders/cancelled"
def shipped : String := "ecommerce/orders/shipped"
def delivered : String := "ecommerce/orders/delivered"
end orders

namespace inventory
def base : String := "ecommerce/inventory"
def updated : String := "ecommerce/inventory/updated"
def lowStock : String := "ecommerce/inventory/low-stock"
def outOfStock : String := "ecommerce/inventory/out-of-stock"
def restocked : String := "ecommerce/inventory/restocked"
end inventory

namespace customers
def base : String := "ecommerce/customers"
def registered : String := "ecommerce/customers/registered"
def loggedIn : String := "ecommerce/customers/logged-in"
def updatedProfile : String := "ecommerce/customers/profile-updated"
end customers

namespace payments
def base : String := "ecommerce/payments"
def authorized : String := "ecommerce/payments/authorized"
def captured : String := "ecommerce/payments/captured"
def failed : String := "ecommerce/payments/failed"
def refunded : String := "ecommerce/payments/refunded"
end payments

end config.topics

/-! ## `src/ecommerce-publisher.js`: data -/

/-- An element of the `products` array. -/
structure Product (α : Type) where
  id : String
  name : String
  category : String
  price : α
  stock : Int
deriving DecidableEq, Repr

/-- An element of the `customers` array. -/
structure Customer where
  id : String
  name : String
  email : String
deriving DecidableEq, Repr

/-- The `products` sample data. -/
def products {α : Type} [OfScientific α] : List (Product α) :=
  [ { id := "p1001", name := "Smartphone", category := "electronics", price := 699.99, stock := 50 },
    { id := "p1002", name := "Laptop", category := "electronics", price := 1299.99, stock := 25 },
    { id := "p1003", name := "Headphones", category := "electronics", price := 149.99, stock := 100 },
    { id := "p1004", name := "Running Shoes", category := "sports", price := 89.99, stock := 75 },
    { id := "p1005", name := "Coffee Maker", category := "home", price := 79.99, stock := 30 } ]

/-- The `customers` sample data. -/
def customers : List Customer :=
  [ { id := "c101", name := "Alice Johnson", email := "alice@example.com" },
    { id := "c102", name := "Bob Smith", email := "bob@example.com" },
    { id := "c103", name := "Carol Williams", email := "carol@example.com" },
    { id := "c104", name := "David Brown", email := "david@example.com" } ]

/-- One element of `orderItems`. -/
structure OrderItem (α : Type) where
  productId : String
  productName : String
  quantity : Int
  unitPrice : α
  subtotal : α
deriving DecidableEq, Repr

/-- The `data` object of an event, one constructor per object literal of the
publisher. Dates are instants. -/
inductive EventData (α : Type) where
  | customerRegistered (customerId name email : String) (registrationDate : Nat)
  | inventoryUpdated (productId productName : String)
      (previousStock currentStock change : Int)
  | lowStock (productId productName : String) (currentStock threshold : Int)
  | outOfStock (productId productName : String) (lastSold : Nat)
  | orderCreated (orderId customerId customerName : String) (orderDate : Nat)
      (items : List (OrderItem α)) (totalAmount : α) (status : String)
  | paymentAuthorized (orderId customerId : String) (amount : α)
      (paymentMethod transactionId : String)
  | orderUpdated (orderId previousStatus currentStatus updateReason : String)
  | paymentFailed (orderId customerId : String) (amount : α)
      (paymentMethod failureReason : String)
  | orderCancelled (orderId previousStatus cancellationReason : String)
deriving DecidableEq, Repr

/-- An event object as built by the `simulate*` functions. `correlationId` is
`none` when the object literal has no such property. -/
structure Envelope (α : Type) where
  eventType : String
  timestamp : Nat
  correlationId : Option String
  data : EventData α
deriving DecidableEq, Repr

/-- One call `publisher.publishEvent(topicName, eventData)`. -/
structure PublishCall (α : Type) where
  topicName : String
  eventData : Envelope α
deriving DecidableEq, Repr

/-! ## JavaScript numbers

A JavaScript number is an IEEE 754 binary64 value. A finite one is given here by
the rational it denotes; `-0` is not told apart from `0` (nothing below divides
by a zero or prints one). Every arithmetic operation returns the exact result
rounded to the nearest double, ties to the even significand, or an infinity when
that rounding leaves the range of the doubles. -/

/-- Rounding of a rational to the nearest integer, a tie going to the even
one. -/
def roundHalfEven (t : ℚ) : Int :=
  if t - (Int.floor t : ℚ) < 1 / 2 then Int.floor t
  else if 1 / 2 < t - (Int.floor t : ℚ) then Int.floor t + 1
  else if Int.floor t % 2 = 0 then Int.floor t
  else Int.floor t + 1

/-- The spacing of the doubles at a positive `a`: `2^(e - 52)` when
`2^e ≤ a < 2^(e + 1)`, and `2^-1074` throughout the subnormal range. -/
def quantum (a : ℚ) : ℚ := (2 : ℚ) ^ (max (Int.log 2 a) (-1022) - 52)

/-- The multiple of the spacing nearest to `a ≥ 0`, ties to even: the double
nearest to `a` when the exponent range is not bounded above. -/
def roundMagnitude (a : ℚ) : ℚ := (roundHalfEven (a / quantum a) : ℚ) * quantum a

/-- Round to nearest, ties to even, with an exponent range not bounded above.
Rounding is symmetric in the sign. -/
def toDouble (x : ℚ) : ℚ := if 0 ≤ x then roundMagnitude x else -roundMagnitude (-x)

/-- A JavaScript number: a finite double (the rational it denotes),
`Infinity`, `-Infinity` or `NaN`. -/
inductive JsNumber where
  | finite (value : ℚ)
  | posInf
  | negInf
  | nan
deriving DecidableEq, Repr

/-- The number an exact result `x` is delivered as: its rounding, or the
infinity of its sign when the rounding is `2^1024` or more in magnitude. -/
def JsNumber.ofExact (x : ℚ) : JsNumber :=
  if -(2 : ℚ) ^ 1024 < toDouble x ∧ toDouble x < (2 : ℚ) ^ 1024 then .finite (toDouble x)
  else if 0 < x then .posInf
  else .negInf

/-- Unary minus. -/
def JsNumber.neg : JsNumber → JsNumber
  | .finite a => .finite (-a)
  | .posInf => .negInf
  | .negInf => .posInf
  | .nan => .nan

/-- The operator `+` on numbers. -/
def JsNumber.add : JsNumber → JsNumber → JsNumber
  | .finite a, .finite b => .ofExact (a + b)
  | .nan, _ => .nan
  | _, .nan => .nan
  | .posInf, .negInf => .nan
  | .negInf, .posInf => .nan
  | .posInf, _ => .posInf
  | _, .posInf => .posInf
  | .negInf, _ => .negInf
  | _, .negInf => .negInf

/-- The operator `-` on numbers. -/
def JsNumber.sub (a b : JsNumber) : JsNumber := a.add b.neg

/-- The operator `*` on numbers. -/
def JsNumber.mul : JsNumber → JsNumber → JsNumber
  | .finite a, .finite b => .ofExact (a * b)
  | .nan, _ => .nan
  | _, .nan => .nan
  | .finite a, .posInf => if a = 0 then .nan else if 0 < a then .posInf else .negInf
  | .finite a, .negInf => if a = 0 then .nan else if 0 < a then .negInf else .posInf
  | .posInf, .finite b => if b = 0 then .nan else if 0 < b then .posInf else .negInf
  | .negInf, .finite b => if b = 0 then .nan else if 0 < b then .negInf else .posInf
  | .posInf, .posInf => .posInf
  | .negInf, .negInf => .posInf
  | .posInf, .negInf => .negInf
  | .negInf, .posInf => .negInf

/-- `Math.floor`: exact on a finite number, the identity on the others. -/
def JsNumber.floor : JsNumber → JsNumber
  | .finite a => .finite (Int.floor a)
  | x => x

/-- The body of `getRandomInt(min, max)` on numbers,
`Math.floor(Math.random() * (max - min + 1)) + min`, where `r` is the value of
`Math.random()`: the subtraction, the addition of 1, the product and the final
addition are each rounded. -/
def JsNumber.getRandomInt (r min max : JsNumber) : JsNumber :=
  ((r.mul ((max.sub min).add (.finite 1))).floor).add min

/-- The integer a number holds. Only read where the number is a finite
integer; 0 stands in for an infinity and for `NaN`. -/
def JsNumber.toInt : JsNumber → Int
  | .finite a => Int.floor a
  | _ => 0

/-- Being a finite double: a rational that its own rounding returns. -/
def isDouble (x : ℚ) : Prop := JsNumber.ofExact x = .finite x

/-- Whether a rational is a finite double is decided by rounding it. -/
instance isDouble.decidable (x : ℚ) : Decidable (isDouble x) :=
  inferInstanceAs (Decidable (JsNumber.ofExact x = .finite x))

/-! ## `src/ecommerce-publisher.js`: helpers -/

/-- `getRandomInt(min, max)` at integer arguments, where `r` is the value of
`Math.random()`: the integer that `JsNumber.getRandomInt` returns. Every call
in the source passes integer literals or `array.length - 1`, where the result
is a finite integer (`getRandomInt_number_eq`). -/
def getRandomInt (r : ℚ) (min max : Int) : Int :=
  (JsNumber.getRandomInt (.finite r) (.finite min) (.finite max)).toInt

/-- `array[i]` for an integer-valued index: `undefined` (here `none`) outside
the array. -/
def arrayAt {β : Type} (array : List β) (i : Int) : Option β :=
  if i < 0 then none else array[i.toNat]?

/-- `getRandomItem(array)` where `r` is the value of `Math.random()`. -/
def getRandomItem {β : Type} (r : ℚ) (array : List β) : Option β :=
  arrayAt array (getRandomInt r 0 ((array.length : Int) - 1))

/-- `generateOrderId()`: `dateNow` is `Date.now()`, `r` the random draw. -/
def generateOrderId (dateNow : Nat) (r : ℚ) : String :=
  "ord-" ++ toString dateNow ++ "-" ++ toString (getRandomInt r 1000 9999)

/-! ### `publisher.publishEvent` -/

/-- The message handed to `session.send`: destination, binary attachment (the
event whose JSON text it is) and the user property map. -/
structure WireMessage (α : Type) where
  destination : String
  attachment : Envelope α
  contentType : String
  correlationId : Option String
  timestamp : Nat
deriving DecidableEq, Repr

/-- A line written by the publisher with `console.log`. -/
inductive PublisherLine (α : Type) where
  | text (s : String)
  | json (eventData : Envelope α)
deriving DecidableEq, Repr

/-- A non-null `session` of the publisher: what `session.send` does with a
message, either accepting it or throwing the given error text. -/
structure PublisherSession (α : Type) where
  send : WireMessage α → Except String Unit

/-- JavaScript truthiness of `eventData.correlationId`. -/
def truthyCorrelationId : Option String → Bool
  | none => false
  | some s => s != ""

/-- `publisher.publishEvent(topicName, eventData)`: the messages accepted by
`session.send` and the console lines. `session = none` is `session === null`;
`dateNow` is the `Date.now()` read for the `timestamp` user property. -/
def publishEvent {α : Type} (session : Option (PublisherSession α)) (dateNow : Nat)
    (topicName : String) (eventData : Envelope α) :
    List (WireMessage α) × List (PublisherLine α) :=
  match session with
  | some s =>
    let message : WireMessage α :=
      { destination := topicName
        attachment := eventData
        contentType := "application/json"
        correlationId :=
          if truthyCorrelationId eventData.correlationId then eventData.correlationId else none
        timestamp := dateNow }
    match s.send message with
    | .ok _ =>
      ([message],
        [.text ("Published event to " ++ topicName ++ ":"), .json eventData,
          .text "-----------------------------------"])
    | .error error =>
      ([], [.text ("Error publishing event to " ++ topicName ++ ": " ++ error)])
  | none => ([], [.text "Cannot publish because not connected to Solace message router."])

/-! ### `publisher.simulateInventoryUpdate` -/

/-- The body of `publisher.simulateInventoryUpdate` once `product` and
`stockChange` have been drawn: the new stock and the `publishEvent` calls made,
in order. `now 0`, `now 1`, `now 2`, `now 3` are the instants of the four
`new Date()` expressions in source order. -/
def inventoryUpdateCalls {α : Type} (product : Product α) (stockChange : Int)
    (now : Nat → Nat) : Int × List (PublishCall α) :=
  let newStock : Int := max 0 (product.stock + stockChange)
  let event : Envelope α :=
    { eventType := "InventoryUpdated"
      timestamp := now 0
      correlationId := none
      data := .inventoryUpdated product.id product.name product.stock newStock stockChange }
  let calls : List (PublishCall α) := [⟨config.topics.inventory.updated, event⟩]
  let calls :=
    if newStock > 0 ∧ newStock ≤ 10 then
      let lowStockEvent : Envelope α :=
        { eventType := "LowStock"
          timestamp := now 1
          correlationId := none
          data := .lowStock product.id product.name newStock 10 }
      calls ++ [⟨config.topics.inventory.lowStock, lowStockEvent⟩]
    else calls
  let calls :=
    if newStock = 0 then
      let outOfStockEvent : Envelope α :=
        { eventType := "OutOfStock"
          timestamp := now 2
          correlationId := none
          data := .outOfStock product.id product.name (now 3) }
      calls ++ [⟨config.topics.inventory.outOfStock, outOfStockEvent⟩]
    else calls
  (newStock, calls)

/-- The result of one `simulate*` invocation: the `products` array afterwards
and the `publishEvent` calls made, or `none` when the invocation throws a
`TypeError` (a property read on `undefined`). -/
abbrev SimResult (α : Type) := Option (List (Product α) × List (PublishCall α))

/-- `publisher.simulateInventoryUpdate` with the drawn array index `index` and
the drawn `stockChange` given: reads `products[index]`, publishes and finally
assigns `product.stock = newStock`. -/
def simulateInventoryUpdateWith {α : Type} (products : List (Product α)) (index : Int)
    (stockChange : Int) (now : Nat → Nat) : SimResult α :=
  match arrayAt products index with
  | none => none
  | some product =>
    let r := inventoryUpdateCalls product stockChange now
    some (products.set index.toNat { product with stock := r.1 }, r.2)

/-- `publisher.simulateInventoryUpdate()`: `rand 0` is the draw of
`getRandomItem(products)`, `rand 1` the draw of `getRandomInt(-10, 20)`. -/
def simulateInventoryUpdate {α : Type} (products : List (Product α)) (rand : Nat → ℚ)
    (now : Nat → Nat) : SimResult α :=
  simulateInventoryUpdateWith products
    (getRandomInt (rand 0) 0 ((products.length : Int) - 1))
    (getRandomInt (rand 1) (-10) 20) now

/-! ### `publisher.simulateCustomerRegistration` -/

/-- `publisher.simulateCustomerRegistration()`: the one `publishEvent` call.
`rand 0` is the draw of `getRandomInt(200, 999)`. -/
def simulateCustomerRegistration {α : Type} (rand : Nat → ℚ) (now : Nat → Nat) :
    List (PublishCall α) :=
  let customerId := "c" ++ toString (getRandomInt (rand 0) 200 999)
  let event : Envelope α :=
    { eventType := "CustomerRegistered"
      timestamp := now 0
      correlationId := none
      data := .customerRegistered customerId ("New Customer " ++ customerId)
        ("customer" ++ customerId ++ "@example.com") (now 1) }
  [⟨config.topics.customers.registered, event⟩]

/-! ### `publisher.simulateOrderCreation` -/

/-- The object literal pushed onto `orderItems` for a drawn product and
quantity. -/
def orderItem {α : Type} [Mul α] [IntCast α] (product : Product α) (quantity : Int) :
    OrderItem α :=
  { productId := product.id
    productName := product.name
    quantity := quantity
    unitPrice := product.price
    subtotal := product.price * (quantity : α) }

/-- The `for (let i = 0; i < itemCount; i++)` loop of `simulateOrderCreation`.
`select i` is the product and quantity drawn in iteration `i` (`none` when
`getRandomItem(products)` is `undefined`, which makes `product.id` throw); the
first argument counts the iterations still to run, the accumulator is
`(orderItems, totalAmount)`. -/
def orderItemsLoop {α : Type} [Add α] [Mul α] [IntCast α]
    (select : Nat → Option (Product α × Int)) :
    Nat → Nat → List (OrderItem α) × α → Option (List (OrderItem α) × α)
  | 0, _, acc => some acc
  | n + 1, i, acc =>
    match select i with
    | none => none
    | some (product, quantity) =>
      orderItemsLoop select n (i + 1)
        (acc.1 ++ [orderItem product quantity], acc.2 + product.price * (quantity : α))

/-- What the arrow function passed to `setTimeout` captures, and its delay. -/
structure PendingPayment (α : Type) where
  orderId : String
  customer : Customer
  totalAmount : α
  delayMs : Nat
deriving DecidableEq, Repr

/-- The synchronous part of `publisher.simulateOrderCreation` once the random
selections are made: `customer` is `getRandomItem(customers)`, `orderId` is
`generateOrderId()`, `itemCount` is `getRandomInt(1, 3)`. Returns the
`publishEvent` call and the scheduled follow-up, or `none` on a `TypeError`.
`now 1` and `now 2` are the instants of `timestamp` and `orderDate`. -/
def simulateOrderCreationWith {α : Type} [Zero α] [Add α] [Mul α] [IntCast α]
    (customer : Option Customer) (orderId : String) (itemCount : Int)
    (select : Nat → Option (Product α × Int)) (now : Nat → Nat) :
    Option (PublishCall α × PendingPayment α) :=
  match orderItemsLoop select itemCount.toNat 0 ([], 0) with
  | none => none
  | some (orderItems, totalAmount) =>
    match customer with
    | none => none
    | some customer =>
      let event : Envelope α :=
        { eventType := "OrderCreated"
          timestamp := now 1
          correlationId := none
          data := .orderCreated orderId customer.id customer.name (now 2) orderItems
            totalAmount "created" }
      some (⟨config.topics.orders.created, event⟩,
        { orderId := orderId, customer := customer, totalAmount := totalAmount, delayMs := 2000 })

/-- `publisher.simulateOrderCreation()` up to the `setTimeout` call. Draws in
order: `rand 0` customer, `rand 1` order id suffix, `rand 2` item count, then
`rand (3 + 2 i)` product and `rand (4 + 2 i)` quantity of iteration `i`;
`now 0` is the `Date.now()` of `generateOrderId`. -/
def simulateOrderCreation {α : Type} [Zero α] [Add α] [Mul α] [IntCast α]
    (customers : List Customer) (products : List (Product α)) (rand : Nat → ℚ)
    (now : Nat → Nat) : Option (PublishCall α × PendingPayment α) :=
  simulateOrderCreationWith (getRandomItem (rand 0) customers)
    (generateOrderId (now 0) (rand 1)) (getRandomInt (rand 2) 1 3)
    (fun i => (getRandomItem (rand (3 + 2 * i)) products).map
      fun product => (product, getRandomInt (rand (4 + 2 * i)) 1 3))
    now

/-- The double nearest to the literal `0.1`, as an exact rational. -/
def pointOne : ℚ := 3602879701896397 / 36028797018963968

/-- The arrow function run by `setTimeout` two seconds after an order: `r` is
its `Math.random()` draw; `now 0` .. `now 4` are the instants of its five clock
reads in source order (payment timestamp, transaction id, order update
timestamp, payment failure timestamp, cancellation timestamp). -/
def paymentFollowUp {α : Type} (p : PendingPayment α) (r : ℚ) (now : Nat → Nat) :
    List (PublishCall α) :=
  let paymentSuccess : Bool := decide (r > pointOne)
  if paymentSuccess then
    let paymentEvent : Envelope α :=
      { eventType := "PaymentAuthorized"
        timestamp := now 0
        correlationId := some p.orderId
        data := .paymentAuthorized p.orderId p.customer.id p.totalAmount "credit_card"
          ("tx-" ++ toString (now 1)) }
    let orderUpdateEvent : Envelope α :=
      { eventType := "OrderUpdated"
        timestamp := now 2
        correlationId := some p.orderId
        data := .orderUpdated p.orderId "created" "paid" "payment_received" }
    [⟨config.topics.payments.authorized, paymentEvent⟩,
      ⟨config.topics.orders.updated, orderUpdateEvent⟩]
  else
    let paymentFailedEvent : Envelope α :=
      { eventType := "PaymentFailed"
        timestamp := now 3
        correlationId := some p.orderId
        data := .paymentFailed p.orderId p.customer.id p.totalAmount "credit_card"
          "insufficient_funds" }
    let orderCancelledEvent : Envelope α :=
      { eventType := "OrderCancelled"
        timestamp := now 4
        correlationId := some p.orderId
        data := .orderCancelled p.orderId "created" "payment_failed" }
    [⟨config.topics.payments.failed, paymentFailedEvent⟩,
      ⟨config.topics.orders.cancelled, orderCancelledEvent⟩]

/-- The property `data.orderId` of an event, `none` when the `data` object has
no such property. -/
def EventData.orderId? {α : Type} : EventData α → Option String
  | .orderCreated orderId _ _ _ _ _ _ => some orderId
  | .paymentAuthorized orderId _ _ _ _ => some orderId
  | .orderUpdated orderId _ _ _ => some orderId
  | .paymentFailed orderId _ _ _ _ => some orderId
  | .orderCancelled orderId _ _ => some orderId
  | _ => none

/-! ## `src/ecommerce-subscriber.js`: the subscription registry -/

/-- A value of the `subscriptions` map. -/
structure Subscription where
  description : String
  active : Bool
deriving DecidableEq, Repr

/-- `subscriptions.get(key)` on an insertion-ordered JavaScript `Map`, kept as
the list of its entries. -/
def mapGet : List (String × Subscription) → String → Option Subscription
  | [], _ => none
  | (k, v) :: rest, key => if k = key then some v else mapGet rest key

/-- `subscriptions.has(key)`. -/
def mapHas (m : List (String × Subscription)) (key : String) : Bool :=
  (mapGet m key).isSome

/-- `subscriptions.set(key, value)`: replaces the value of an existing key in
place, appends a new key at the end. -/
def mapSet : List (String × Subscription) → String → Subscription →
    List (String × Subscription)
  | [], key, value => [(key, value)]
  | (k, v) :: rest, key, value =>
    if k = key then (k, value) :: rest else (k, v) :: mapSet rest key value

/-- A request accepted by the session: the arguments of `session.subscribe` or
`session.unsubscribe`. -/
inductive TransportRequest where
  | subscribe (topic : String) (requestConfirmation : Bool) (correlationKey : String)
      (timeoutMs : Nat)
  | unsubscribe (topic : String) (requestConfirmation : Bool) (correlationKey : String)
      (timeoutMs : Nat)
deriving DecidableEq, Repr

/-- The module state of the subscriber: `session !== null`, the `subscriptions`
map, the requests the session has accepted so far and the console. -/
structure SubscriberState where
  session : Bool
  subscriptions : List (String × Subscription)
  requests : List TransportRequest
  log : List String
deriving DecidableEq, Repr

/-- The state when the module is loaded. -/
def SubscriberState.initial : SubscriberState :=
  { session := false, subscriptions := [], requests := [], log := [] }

/-- `console.log(line)`. -/
def SubscriberState.consoleLog (st : SubscriberState) (line : String) : SubscriberState :=
  { st with log := st.log ++ [line] }

/-- `subscriber.subscribe(topicName, description)`; `outcome` is what
`session.subscribe` does when reached: accept, or throw the given text. -/
def subscribe (st : SubscriberState) (topicName description : String)
    (outcome : Except String Unit) : SubscriberState :=
  if st.session then
    if mapHas st.subscriptions topicName then
      st.consoleLog ("Already subscribed to \"" ++ topicName ++ "\"")
    else
      let st := st.consoleLog ("Subscribing to topic: " ++ topicName ++ " (" ++ description ++ ")")
      match outcome with
      | .ok _ =>
        { st with
          requests := st.requests ++ [.subscribe topicName true topicName 10000]
          subscriptions := mapSet st.subscriptions topicName
            { description := description, active := false } }
      | .error error => st.consoleLog ("Error subscribing to topic: " ++ error)
  else
    st.consoleLog "Cannot subscribe because not connected to Solace message router."

/-- `subscriber.setupSubscriptions()`; `outcomes k` is the outcome of the
`k`-th `session.subscribe`. -/
def setupSubscriptions (st : SubscriberState) (outcomes : Nat → Except String Unit) :
    SubscriberState :=
  let st := subscribe st (config.topics.orders.base ++ "/*") "All Order Events" (outcomes 0)
  let st := subscribe st config.topics.inventory.lowStock "Low Stock Alerts" (outcomes 1)
  let st := subscribe st config.topics.inventory.outOfStock "Out of Stock Alerts" (outcomes 2)
  let st := subscribe st (config.topics.payments.base ++ "/*") "All Payment Events" (outcomes 3)
  let st := subscribe st config.topics.customers.registered "New Customer Registrations"
    (outcomes 4)
  subscribe st "ecommerce/>" "All E-commerce Events (for logging)" (outcomes 5)

/-- `subscriber.unsubscribe(topicName)`; `outcome` is what `session.unsubscribe`
does when reached. -/
def unsubscribe (st : SubscriberState) (topicName : String)
    (outcome : Except String Unit) : SubscriberState :=
  if st.session then
    if mapHas st.subscriptions topicName &&
        ((mapGet st.subscriptions topicName).map fun v => v.active) == some true then
      let st := st.consoleLog ("Unsubscribing from topic: " ++ topicName)
      match outcome with
      | .ok _ =>
        { st with requests := st.requests ++ [.unsubscribe topicName true topicName 10000] }
      | .error error => st.consoleLog ("Error unsubscribing from topic: " ++ error)
    else
      st.consoleLog
        ("Cannot unsubscribe because not subscribed to the topic \"" ++ topicName ++ "\"")
  else
    st.consoleLog "Cannot unsubscribe because not connected to Solace message router."

/-- `subscriber.unsubscribeAll()`: `forEach` over the entries in insertion
order; `outcomes topicName` is the outcome of `session.unsubscribe` for that
topic. -/
def unsubscribeAll (st : SubscriberState) (outcomes : String → Except String Unit) :
    SubscriberState :=
  if st.session then
    st.subscriptions.foldl
      (fun acc entry => if entry.2.active then unsubscribe acc entry.1 (outcomes entry.1) else acc)
      st
  else st

/-- `subscriber.disconnect()`; `disconnectOutcome` is what `session.disconnect`
does. The `session` variable is only cleared by the `DISCONNECTED` event. -/
def disconnect (st : SubscriberState) (outcomes : String → Except String Unit)
    (disconnectOutcome : Except String Unit) : SubscriberState :=
  let st := unsubscribeAll st outcomes
  if st.session then
    match disconnectOutcome with
    | .ok _ => st.consoleLog "Disconnected from Solace message router."
    | .error error =>
      st.consoleLog ("Error disconnecting from Solace message router: " ++ error)
  else st

/-- What the `try` block of `subscriber.connect` does: everything succeeds,
`createSession` throws (the `session` variable stays `null`), or a later call
(`session.connect()`) throws after `session` was assigned. -/
inductive ConnectOutcome where
  | ok
  | createSessionThrows (error : String)
  | connectThrows (error : String)
deriving DecidableEq, Repr

/-- `subscriber.connect()`. -/
def connect (st : SubscriberState) (outcome : ConnectOutcome) : SubscriberState :=
  if st.session then
    st.consoleLog "Already connected to Solace message router."
  else
    match outcome with
    | .ok => { st with session := true }
    | .createSessionThrows error =>
      st.consoleLog ("Error connecting to Solace message router: " ++ error)
    | .connectThrows error =>
      { st with session := true }.consoleLog
        ("Error connecting to Solace message router: " ++ error)

/-- The `UP_NOTICE` listener: `subscriber.connectSuccess()`. -/
def onUpNotice (st : SubscriberState) (outcomes : Nat → Except String Unit) :
    SubscriberState :=
  setupSubscriptions (st.consoleLog "Successfully connected to Solace message router!") outcomes

/-- The `CONNECT_FAILED_ERROR` listener: `subscriber.connectFailure(infoStr)`. -/
def onConnectFailed (st : SubscriberState) (infoStr : String) : SubscriberState :=
  st.consoleLog ("Failed to connect to Solace message router: " ++ infoStr)

/-- The `DISCONNECTED` listener. -/
def onDisconnected (st : SubscriberState) : SubscriberState :=
  if st.session then
    { st with session := false, subscriptions := [] }.consoleLog "Session disconnected."
  else st

/-- The `SUBSCRIPTION_OK` listener; `topicName` is `sessionEvent.correlationKey`. -/
def onSubscriptionOk (st : SubscriberState) (topicName : String) : SubscriberState :=
  match mapGet st.subscriptions topicName with
  | some subscription =>
    { st with
      subscriptions := mapSet st.subscriptions topicName { subscription with active := true } }
      |>.consoleLog
        ("Successfully subscribed to topic: " ++ topicName ++ " (" ++
          subscription.description ++ ")")
  | none => st

/-- The `SUBSCRIPTION_ERROR` listener; `topicName` is `sessionEvent.correlationKey`. -/
def onSubscriptionError (st : SubscriberState) (topicName : String) : SubscriberState :=
  let st := st.consoleLog ("Failed to subscribe to topic: " ++ topicName)
  match mapGet st.subscriptions topicName with
  | some subscription =>
    { st with
      subscriptions := mapSet st.subscriptions topicName { subscription with active := false } }
  | none => st

/-- `subscriber.showSubscriptions()`. -/
def showSubscriptions (st : SubscriberState) : SubscriberState :=
  let st := (st.consoleLog "\nCurrent Subscriptions:").consoleLog
    "-----------------------------------"
  let st :=
    if st.subscriptions.length = 0 then st.consoleLog "No subscriptions."
    else
      st.subscriptions.foldl
        (fun acc entry =>
          acc.consoleLog ((if entry.2.active then "✅" else "❌") ++ " " ++ entry.1 ++ " - " ++
            entry.2.description))
        st
  st.consoleLog "-----------------------------------\n"

/-- Everything that can run against the registry: the exported operations and
the session listeners, each with the behaviour of the session calls it makes.
(The `MESSAGE` listener, `processMessage`, neither reads nor writes this
state.) -/
inductive Action where
  | connect (outcome : ConnectOutcome)
  | subscribe (topicName description : String) (outcome : Except String Unit)
  | unsubscribe (topicName : String) (outcome : Except String Unit)
  | unsubscribeAll (outcomes : String → Except String Unit)
  | disconnect (outcomes : String → Except String Unit) (disconnectOutcome : Except String Unit)
  | showSubscriptions
  | upNotice (outcomes : Nat → Except String Unit)
  | connectFailed (infoStr : String)
  | disconnected
  | subscriptionOk (correlationKey : String)
  | subscriptionError (correlationKey : String)

/-- One step of the subscriber. -/
def step (st : SubscriberState) : Action → SubscriberState
  | .connect outcome => connect st outcome
  | .subscribe topicName description outcome => subscribe st topicName description outcome
  | .unsubscribe topicName outcome => unsubscribe st topicName outcome
  | .unsubscribeAll outcomes => unsubscribeAll st outcomes
  | .disconnect outcomes disconnectOutcome => disconnect st outcomes disconnectOutcome
  | .showSubscriptions => showSubscriptions st
  | .upNotice outcomes => onUpNotice st outcomes
  | .connectFailed infoStr => onConnectFailed st infoStr
  | .disconnected => onDisconnected st
  | .subscriptionOk correlationKey => onSubscriptionOk st correlationKey
  | .subscriptionError correlationKey => onSubscriptionError st correlationKey

/-- The state after a sequence of actions. -/
def run (st : SubscriberState) (actions : List Action) : SubscriberState :=
  actions.foldl step st

/-- The number of entries of the map stored under `key`. -/
def entryCount (m : List (String × Subscription)) (key : String) : Nat :=
  (m.filter fun entry => entry.1 = key).length

/-- An entry for `key` is registered and its `active` flag is `true`. -/
def isActive (st : SubscriberState) (key : String) : Bool :=
  match mapGet st.subscriptions key with
  | some subscription => subscription.active
  | none => false

/-! ## `src/ecommerce-subscriber.js`: `processMessage` -/

/-- A JavaScript value as `JSON.parse` can return it, plus `undefined`. -/
inductive JsVal (α : Type) where
  | undefined
  | null
  | bool (b : Bool)
  | num (x : α)
  | str (s : String)
  | arr (items : List (JsVal α))
  | obj (fields : List (String × JsVal α))

/-- An exception thrown while evaluating an expression. -/
inductive JsError where
  | typeError (detail : String)
deriving DecidableEq, Repr

/-- The own property `name` of an object given by its field list. -/
def lookupField {α : Type} : List (String × JsVal α) → String → JsVal α
  | [], _ => .undefined
  | (k, v) :: rest, name => if k = name then v else lookupField rest name

/-- The property read `v.name` for the property names `processMessage` uses:
a `TypeError` on `undefined` and `null`, the own property on an object,
`length` on arrays and strings, `undefined` otherwise. -/
def getProp {α : Type} [NatCast α] (v : JsVal α) (name : String) : Except JsError (JsVal α) :=
  match v with
  | .undefined => .error (.typeError ("Cannot read properties of undefined: " ++ name))
  | .null => .error (.typeError ("Cannot read properties of null: " ++ name))
  | .obj fields => .ok (lookupField fields name)
  | .arr items => if name = "length" then .ok (.num (items.length : α)) else .ok .undefined
  | .str s => if name = "length" then .ok (.num (s.length : α)) else .ok .undefined
  | .bool _ => .ok .undefined
  | .num _ => .ok .undefined

/-- The chained property read `v.a.b...`, left to right. -/
def readPath {α : Type} [NatCast α] (v : JsVal α) : List String → Except JsError (JsVal α)
  | [] => .ok v
  | name :: rest =>
    match getProp v name with
    | .ok w => readPath w rest
    | .error e => .error e

/-- A piece of a template literal: literal text, an interpolated value, or the
result of `x.toFixed(digits)`. -/
inductive Piece (α : Type) where
  | text (s : String)
  | val (v : JsVal α)
  | fixed (x : α) (digits : Nat)

/-- A console line of `processMessage`. -/
abbrev Line (α : Type) := List (Piece α)

/-- The method call `v.toFixed(digits)`: only a number has that method. -/
def toFixed {α : Type} (v : JsVal α) (digits : Nat) : Except JsError (Piece α) :=
  match v with
  | .num x => .ok (.fixed x digits)
  | .undefined => .error (.typeError "Cannot read properties of undefined: toFixed")
  | .null => .error (.typeError "Cannot read properties of null: toFixed")
  | _ => .error (.typeError "toFixed is not a function")

/-- The line `label` followed by the value read at `path`. -/
def logField {α : Type} [NatCast α] (label : String) (content : JsVal α)
    (path : List String) : Except JsError (Line α) :=
  match readPath content path with
  | .ok v => .ok [.text label, .val v]
  | .error e => .error e

/-- The line `label` followed by the two values read at `path1` and `path2`,
joined by an arrow. -/
def logChange {α : Type} [NatCast α] (label : String) (content : JsVal α)
    (path1 path2 : List String) : Except JsError (Line α) :=
  match readPath content path1 with
  | .ok v =>
    match readPath content path2 with
    | .ok w => .ok [.text label, .val v, .text " → ", .val w]
    | .error e => .error e
  | .error e => .error e

/-- The line `label` followed by `toFixed(2)` of the value read at `path`. -/
def logAmount {α : Type} [NatCast α] (label : String) (content : JsVal α)
    (path : List String) : Except JsError (Line α) :=
  match readPath content path with
  | .ok v =>
    match toFixed v 2 with
    | .ok piece => .ok [.text label, piece]
    | .error e => .error e
  | .error e => .error e

/-- A line of fixed text. -/
def logText {α : Type} (s : String) : Except JsError (Line α) := .ok [.text s]

/-- Runs `console.log` statements in order: the lines written, and the
exception that stopped the run, if any. -/
def runLogs {α : Type} : List (Except JsError (Line α)) → List (Line α) × Option JsError
  | [] => ([], none)
  | .ok line :: rest => (line :: (runLogs rest).1, (runLogs rest).2)
  | .error e :: _ => ([], some e)

/-- `topic.startsWith(base)`. -/
def startsWith (topic base : String) : Bool := base.data.isPrefixOf topic.data

/-- An inbound message: `getDestination().getName()`, `getBinaryAttachment()`
(a string, or `none` for `null`) and what `getUserPropertyMap()` with its key
walk does (the properties, `none` for a missing map, or a thrown text). -/
structure Message where
  destination : String
  binaryAttachment : Option String
  userPropertyMap : Except String (Option (List (String × String)))

/-- The four header lines common to every category. -/
def headerLines {α : Type} [NatCast α] (title topic : String) (timestamp : Nat)
    (content : JsVal α) : List (Except JsError (Line α)) :=
  [logText title, logText ("   Topic: " ++ topic),
    logText ("   Time: " ++ toString timestamp), logField "   Type: " content ["eventType"]]

/-- The `if` / `else if` cascade of `processMessage` on the topic, as the list
of its `console.log` statements. -/
def categoryLines {α : Type} [NatCast α] (topic : String) (timestamp : Nat)
    (content : JsVal α) : List (Except JsError (Line α)) :=
  if startsWith topic config.topics.orders.base then
    headerLines "\n🛒 ORDER EVENT:" topic timestamp content ++
    (if topic = config.topics.orders.created then
      [logField "   Order ID: " content ["data", "orderId"],
        logField "   Customer: " content ["data", "customerName"],
        logAmount "   Total: $" content ["data", "totalAmount"],
        logField "   Items: " content ["data", "items", "length"]]
    else if topic = config.topics.orders.updated then
      [logField "   Order ID: " content ["data", "orderId"],
        logChange "   Status Change: " content ["data", "previousStatus"]
          ["data", "currentStatus"],
        logField "   Reason: " content ["data", "updateReason"]]
    else if topic = config.topics.orders.cancelled then
      [logField "   Order ID: " content ["data", "orderId"],
        logField "   Previous Status: " content ["data", "previousStatus"],
        logField "   Reason: " content ["data", "cancellationReason"]]
    else [])
  else if startsWith topic config.topics.inventory.base then
    headerLines "\n📦 INVENTORY EVENT:" topic timestamp content ++
    (if topic = config.topics.inventory.lowStock then
      [logText "   ⚠️ LOW STOCK ALERT",
        logField "   Product: " content ["data", "productName"],
        logField "   Current Stock: " content ["data", "currentStock"],
        logField "   Threshold: " content ["data", "threshold"]]
    else if topic = config.topics.inventory.outOfStock then
      [logText "   ❌ OUT OF STOCK ALERT",
        logField "   Product: " content ["data", "productName"],
        logField "   Last Sold: " content ["data", "lastSold"]]
    else if topic = config.topics.inventory.updated then
      [logField "   Product: " content ["data", "productName"],
        logChange "   Stock Change: " content ["data", "previousStock"]
          ["data", "currentStock"]]
    else [])
  else if startsWith topic config.topics.payments.base then
    headerLines "\n💰 PAYMENT EVENT:" topic timestamp content ++
    (if topic = config.topics.payments.authorized then
      [logText "   ✅ PAYMENT AUTHORIZED",
        logField "   Order ID: " content ["data", "orderId"],
        logAmount "   Amount: $" content ["data", "amount"],
        logField "   Transaction ID: " content ["data", "transactionId"]]
    else if topic = config.topics.payments.failed then
      [logText "   ❌ PAYMENT FAILED",
        logField "   Order ID: " content ["data", "orderId"],
        logAmount "   Amount: $" content ["data", "amount"],
        logField "   Reason: " content ["data", "failureReason"]]
    else [])
  else if startsWith topic config.topics.customers.base then
    headerLines "\n👤 CUSTOMER EVENT:" topic timestamp content ++
    (if topic = config.topics.customers.registered then
      [logText "   ✨ NEW CUSTOMER",
        logField "   ID: " content ["data", "customerId"],
        logField "   Name: " content ["data", "name"],
        logField "   Email: " content ["data", "email"]]
    else [])
  else []

/-- The outcome of `processMessage`: the console lines written and the
exception that escaped, if any. -/
structure ProcessResult (α : Type) where
  lines : List (Line α)
  thrown : Option JsError

/-- `subscriber.processMessage(message)`. `jsonParse` is `JSON.parse` on a
string (the parsed value, or the message of the `SyntaxError` it throws); a
`null` attachment is converted to the text `null` before parsing. `timestamp`
is the instant of `new Date()`. -/
def processMessage {α : Type} [NatCast α] (jsonParse : String → Except String (JsVal α))
    (message : Message) (timestamp : Nat) : ProcessResult α :=
  let topic := message.destination
  let parsed : List (Line α) × JsVal α :=
    match jsonParse (message.binaryAttachment.getD "null") with
    | .ok content => ([], content)
    | .error e =>
      ([[.text ("Error parsing message on topic " ++ topic ++ ": " ++ e)]],
        match message.binaryAttachment with
        | some raw => .str raw
        | none => .null)
  let content := parsed.2
  let propertyLines : List (Line α) :=
    match message.userPropertyMap with
    | .ok _ => []
    | .error e => [[.text ("Note: No user properties available: " ++ e)]]
  let body := runLogs (categoryLines topic timestamp content ++
    [logText "-----------------------------------"])
  { lines := parsed.1 ++ propertyLines ++ body.1, thrown := body.2 }

/-! ### The category cascade of `processMessage` -/

/-- The four branches of the `if` / `else if` cascade on the topic. -/
inductive Category where
  | orders
  | inventory
  | payments
  | customers
deriving DecidableEq, Repr

/-- The base path a branch tests with `topic.startsWith`. -/
def Category.base : Category → String
  | .orders => config.topics.orders.base
  | .inventory => config.topics.inventory.base
  | .payments => config.topics.payments.base
  | .customers => config.topics.customers.base

/-- The first line a branch writes. -/
def Category.title : Category → String
  | .orders => "\n🛒 ORDER EVENT:"
  | .inventory => "\n📦 INVENTORY EVENT:"
  | .payments => "\n💰 PAYMENT EVENT:"
  | .customers => "\n👤 CUSTOMER EVENT:"

/-- The order in which `processMessage` tests the base paths. -/
def cascade : List Category := [.orders, .inventory, .payments, .customers]

/-- The branch taken by an `if` / `else if` cascade that tests the base paths
in the order `tests`: the first one whose base path the topic starts with. -/
def selectCategory (tests : List Category) (topic : String) : Option Category :=
  tests.find? fun c => startsWith topic c.base

/-! ### The publisher as a state machine -/

/-- The module-level simulation data of the publisher: the `products` and
`customers` arrays. -/
structure PublisherState (α : Type) where
  products : List (Product α)
  customers : List Customer
deriving DecidableEq, Repr

/-- What one callback of the publisher leaves behind: the simulation data
afterwards, the `publishEvent` calls it made and the timers it scheduled. -/
structure Outcome (α : Type) where
  state : PublisherState α
  calls : List (PublishCall α)
  timers : List (PendingPayment α)
deriving DecidableEq, Repr

/-- `publisher.simulateCustomerRegistration()` on the simulation data: it
neither reads nor assigns the arrays. -/
def PublisherState.simulateCustomerRegistration {α : Type} (st : PublisherState α)
    (rand : Nat → ℚ) (now : Nat → Nat) : Option (Outcome α) :=
  some { state := st, calls := EcommerceMesh.simulateCustomerRegistration rand now, timers := [] }

/-- `publisher.simulateInventoryUpdate()` on the simulation data: the only
assignment is `product.stock = newStock` on the drawn element of `products`. -/
def PublisherState.simulateInventoryUpdate {α : Type} (st : PublisherState α)
    (rand : Nat → ℚ) (now : Nat → Nat) : Option (Outcome α) :=
  (EcommerceMesh.simulateInventoryUpdate st.products rand now).map fun r =>
    { state := { st with products := r.1 }, calls := r.2, timers := [] }

/-- `publisher.simulateOrderCreation()` on the simulation data, up to the
`setTimeout` call: the arrays are read, never assigned. -/
def PublisherState.simulateOrderCreation {α : Type} [Zero α] [Add α] [Mul α] [IntCast α]
    (st : PublisherState α) (rand : Nat → ℚ) (now : Nat → Nat) : Option (Outcome α) :=
  (EcommerceMesh.simulateOrderCreation st.customers st.products rand now).map fun r =>
    { state := st, calls := [r.1], timers := [r.2] }

/-- The delayed follow-up of an order on the simulation data: it uses only the
captured `orderId`, `customer` and `totalAmount`. -/
def PublisherState.paymentFollowUp {α : Type} (st : PublisherState α)
    (p : PendingPayment α) (r : ℚ) (now : Nat → Nat) : Option (Outcome α) :=
  some { state := st, calls := EcommerceMesh.paymentFollowUp p r now, timers := [] }

/-! ## The topic matcher of the specification

The repository contains no topic matcher: the subscriber hands its patterns to
the broker with `session.subscribe`. The matcher below follows section 4.1 of
the specification. -/

/-- Modelled from the spec: the split of a topic or pattern into its segments
at the separator `/`, which the repository never performs. `current` holds the
characters of the segment being read, last one first. -/
def splitSegments : List Char → List Char → List String
  | current, [] => [String.mk current.reverse]
  | current, c :: cs =>
    if c = '/' then String.mk current.reverse :: splitSegments [] cs
    else splitSegments (c :: current) cs

/-- Modelled from the spec: the segments of a topic or pattern string (the
repository has no such function). -/
def segments (s : String) : List String := splitSegments [] s.data

/-- Modelled from the spec: the lock-step walk of section 4.1 over topic
segments and pattern segments, missing from the repository. A pattern segment
`>` in final position matches the rest of the topic, zero segments included;
`*` consumes exactly one topic segment; a literal must equal the topic segment;
an exhausted pattern matches only an exhausted topic. (A `>` that is not final
is invalid at registration; here it is read as a literal.) -/
def matchSegments : List String → List String → Bool
  | topic, [] => topic.isEmpty
  | topic, p :: ps =>
    if p = ">" ∧ ps = [] then true
    else
      match topic with
      | [] => false
      | t :: ts => (decide (p = "*") || decide (p = t)) && matchSegments ts ps

/-- Modelled from the spec: `matches(topic, pattern)` of section 4.1, which the
repository does not implement. -/
def topicMatches (topic pattern : String) : Bool :=
  matchSegments (segments topic) (segments pattern)

/-- The property `data.customerId` of an event, `none` when the `data` object
has no such property. -/
def EventData.customerId? {α : Type} : EventData α → Option String
  | .customerRegistered customerId _ _ _ => some customerId
  | .orderCreated _ customerId _ _ _ _ _ => some customerId
  | .paymentAuthorized _ customerId _ _ _ => some customerId
  | .paymentFailed _ customerId _ _ _ => some customerId
  | _ => none

/-- The property `data.amount` of an event, `none` when the `data` object has
no such property. -/
def EventData.amount? {α : Type} : EventData α → Option α
  | .paymentAuthorized _ _ amount _ _ => some amount
  | .paymentFailed _ _ amount _ _ => some amount
  | _ => none

/-- The property `data.totalAmount` of an event, `none` when the `data` object
has no such property. -/
def EventData.totalAmount? {α : Type} : EventData α → Option α
  | .orderCreated _ _ _ _ _ totalAmount _ => some totalAmount
  | _ => none

/-! ## The published envelopes as the subscriber receives them -/

/-- The value `JSON.parse` returns for the JSON text of an order line. A number
is assumed finite (`JSON.stringify` writes `null` for `NaN` and infinities). -/
def OrderItem.toJson {α : Type} [IntCast α] (item : OrderItem α) : JsVal α :=
  .obj [("productId", .str item.productId), ("productName", .str item.productName),
    ("quantity", .num (item.quantity : α)), ("unitPrice", .num item.unitPrice),
    ("subtotal", .num item.subtotal)]

/-- The value `JSON.parse` returns for the JSON text of a `data` object, with
the property names of the object literals of the publisher; `iso` renders an
instant as `toISOString` does. Numbers are assumed finite. -/
def EventData.toJson {α : Type} [IntCast α] (iso : Nat → String) : EventData α → JsVal α
  | .customerRegistered customerId name email registrationDate =>
    .obj [("customerId", .str customerId), ("name", .str name), ("email", .str email),
      ("registrationDate", .str (iso registrationDate))]
  | .inventoryUpdated productId productName previousStock currentStock change =>
    .obj [("productId", .str productId), ("productName", .str productName),
      ("previousStock", .num (previousStock : α)), ("currentStock", .num (currentStock : α)),
      ("change", .num (change : α))]
  | .lowStock productId productName currentStock threshold =>
    .obj [("productId", .str productId), ("productName", .str productName),
      ("currentStock", .num (currentStock : α)), ("threshold", .num (threshold : α))]
  | .outOfStock productId productName lastSold =>
    .obj [("productId", .str productId), ("productName", .str productName),
      ("lastSold", .str (iso lastSold))]
  | .orderCreated orderId customerId customerName orderDate items totalAmount status =>
    .obj [("orderId", .str orderId), ("customerId", .str customerId),
      ("customerName", .str customerName), ("orderDate", .str (iso orderDate)),
      ("items", .arr (items.map fun item => item.toJson)), ("totalAmount", .num totalAmount),
      ("status", .str status)]
  | .paymentAuthorized orderId customerId amount paymentMethod transactionId =>
    .obj [("orderId", .str orderId), ("customerId", .str customerId), ("amount", .num amount),
      ("paymentMethod", .str paymentMethod), ("transactionId", .str transactionId)]
  | .orderUpdated orderId previousStatus currentStatus updateReason =>
    .obj [("orderId", .str orderId), ("previousStatus", .str previousStatus),
      ("currentStatus", .str currentStatus), ("updateReason", .str updateReason)]
  | .paymentFailed orderId customerId amount paymentMethod failureReason =>
    .obj [("orderId", .str orderId), ("customerId", .str customerId), ("amount", .num amount),
      ("paymentMethod", .str paymentMethod), ("failureReason", .str failureReason)]
  | .orderCancelled orderId previousStatus cancellationReason =>
    .obj [("orderId", .str orderId), ("previousStatus", .str previousStatus),
      ("cancellationReason", .str cancellationReason)]

/-- The value `JSON.parse` returns for `JSON.stringify(eventData)`: the
properties `eventType`, `timestamp`, `correlationId` (when the event has one)
and `data`. -/
def Envelope.toJson {α : Type} [IntCast α] (iso : Nat → String) (e : Envelope α) : JsVal α :=
  .obj ([("eventType", .str e.eventType), ("timestamp", .str (iso e.timestamp))] ++
    (match e.correlationId with
      | some correlationId => [("correlationId", .str correlationId)]
      | none => []) ++
    [("data", e.data.toJson iso)])

/-- A `publishEvent` call that some run of a `simulate*` function or of the
delayed follow-up makes. -/
def Publishable {α : Type} [Zero α] [Add α] [Mul α] [IntCast α] (call : PublishCall α) : Prop :=
  (∃ (rand : Nat → ℚ) (now : Nat → Nat), call ∈ simulateCustomerRegistration rand now) ∨
  (∃ (product : Product α) (stockChange : Int) (now : Nat → Nat),
    call ∈ (inventoryUpdateCalls product stockChange now).2) ∨
  (∃ (customer : Option Customer) (orderId : String) (itemCount : Int)
      (select : Nat → Option (Product α × Int)) (now : Nat → Nat) (pending : PendingPayment α),
    simulateOrderCreationWith customer orderId itemCount select now = some (call, pending)) ∨
  (∃ (p : PendingPayment α) (r : ℚ) (now : Nat → Nat), call ∈ paymentFollowUp p r now)

/-- An interpolated value that prints as `undefined`: a property that was read
and is missing. -/
def Piece.isUndefined {α : Type} : Piece α → Bool
  | .val .undefined => true
  | _ => false

/-- The four header lines of a category for an event whose `eventType` is
present. -/
def headerOf {α : Type} (c : Category) (topic : String) (timestamp : Nat)
    (eventType : String) : List (Line α) :=
  [[.text c.title], [.text ("   Topic: " ++ topic)],
    [.text ("   Time: " ++ toString timestamp)], [.text "   Type: ", .val (.str eventType)]]

/-- The lines the tailored branch of the leaf topic of an event writes, with
the values of the event in the places of the properties read; `iso` renders
an instant as `toISOString` does. -/
def tailoredLines {α : Type} [NatCast α] [IntCast α] (iso : Nat → String) :
    EventData α → List (Line α)
  | .customerRegistered customerId name email _ =>
    [[.text "   ✨ NEW CUSTOMER"], [.text "   ID: ", .val (.str customerId)],
      [.text "   Name: ", .val (.str name)], [.text "   Email: ", .val (.str email)]]
  | .inventoryUpdated _ productName previousStock currentStock _ =>
    [[.text "   Product: ", .val (.str productName)],
      [.text "   Stock Change: ", .val (.num (previousStock : α)), .text " → ",
        .val (.num (currentStock : α))]]
  | .lowStock _ productName currentStock threshold =>
    [[.text "   ⚠️ LOW STOCK ALERT"], [.text "   Product: ", .val (.str productName)],
      [.text "   Current Stock: ", .val (.num (currentStock : α))],
      [.text "   Threshold: ", .val (.num (threshold : α))]]
  | .outOfStock _ productName lastSold =>
    [[.text "   ❌ OUT OF STOCK ALERT"], [.text "   Product: ", .val (.str productName)],
      [.text "   Last Sold: ", .val (.str (iso lastSold))]]
  | .orderCreated orderId _ customerName _ items totalAmount _ =>
    [[.text "   Order ID: ", .val (.str orderId)],
      [.text "   Customer: ", .val (.str customerName)],
      [.text "   Total: $", .fixed totalAmount 2],
      [.text "   Items: ", .val (.num (items.length : α))]]
  | .paymentAuthorized orderId _ amount _ transactionId =>
    [[.text "   ✅ PAYMENT AUTHORIZED"], [.text "   Order ID: ", .val (.str orderId)],
      [.text "   Amount: $", .fixed amount 2],
      [.text "   Transaction ID: ", .val (.str transactionId)]]
  | .orderUpdated orderId previousStatus currentStatus updateReason =>
    [[.text "   Order ID: ", .val (.str orderId)],
      [.text "   Status Change: ", .val (.str previousStatus), .text " → ",
        .val (.str currentStatus)],
      [.text "   Reason: ", .val (.str updateReason)]]
  | .paymentFailed orderId _ amount _ failureReason =>
    [[.text "   ❌ PAYMENT FAILED"], [.text "   Order ID: ", .val (.str orderId)],
      [.text "   Amount: $", .fixed amount 2], [.text "   Reason: ", .val (.str failureReason)]]
  | .orderCancelled orderId previousStatus cancellationReason =>
    [[.text "   Order ID: ", .val (.str orderId)],
      [.text "   Previous Status: ", .val (.str previousStatus)],
      [.text "   Reason: ", .val (.str cancellationReason)]]

/-! # Theorems -/

/-- The order loop run over a given sequence of selections appends one item per
selection and adds each `price * quantity` to the running total, in order. -/
theorem orderItemsLoop_eq {α : Type} [Add α] [Mul α] [IntCast α]
    (select : Nat → Option (Product α × Int)) (l : List (Product α × Int)) :
    ∀ (i : Nat) (acc : List (OrderItem α) × α),
      (∀ j (hj : j < l.length), select (i + j) = some (l.get ⟨j, hj⟩)) →
      orderItemsLoop select l.length i acc =
        some (acc.1 ++ l.map (fun s => orderItem s.1 s.2),
          l.foldl (fun t s => t + s.1.price * (s.2 : α)) acc.2) := by
  induction l with
  | nil => intro i acc _; simp [orderItemsLoop]
  | cons s rest ih =>
    intro i acc hsel
    have h0 : select i = some s := by simpa using hsel 0 (by simp)
    have hrest : ∀ j (hj : j < rest.length), select (i + 1 + j) = some (rest.get ⟨j, hj⟩) := by
      intro j hj
      have := hsel (j + 1) (by simpa using hj)
      simpa [Nat.add_assoc, Nat.add_comm 1 j] using this
    simp only [List.length_cons, orderItemsLoop, h0]
    rw [ih (i + 1) _ hrest]
    simp

/-- The follow-up on the success branch (`Math.random() > 0.1`). -/
theorem paymentFollowUp_success {α : Type} (p : PendingPayment α) (r : ℚ) (now : Nat → Nat)
    (hr : r > pointOne) :
    paymentFollowUp p r now =
      [{ topicName := "ecommerce/payments/authorized"
         eventData :=
           { eventType := "PaymentAuthorized"
             timestamp := now 0
             correlationId := some p.orderId
             data := .paymentAuthorized p.orderId p.customer.id p.totalAmount "credit_card"
               ("tx-" ++ toString (now 1)) } },
       { topicName := "ecommerce/orders/updated"
         eventData :=
           { eventType := "OrderUpdated"
             timestamp := now 2
             correlationId := some p.orderId
             data := .orderUpdated p.orderId "created" "paid" "payment_received" } }] := by
  simp [paymentFollowUp, hr, config.topics.payments.authorized, config.topics.orders.updated]

/-- The follow-up on the other branch. -/
theorem paymentFollowUp_failure {α : Type} (p : PendingPayment α) (r : ℚ) (now : Nat → Nat)
    (hr : ¬ r > pointOne) :
    paymentFollowUp p r now =
      [{ topicName := "ecommerce/payments/failed"
         eventData :=
           { eventType := "PaymentFailed"
             timestamp := now 3
             correlationId := some p.orderId
             data := .paymentFailed p.orderId p.customer.id p.totalAmount "credit_card"
               "insufficient_funds" } },
       { topicName := "ecommerce/orders/cancelled"
         eventData :=
           { eventType := "OrderCancelled"
             timestamp := now 4
             correlationId := some p.orderId
             data := .orderCancelled p.orderId "created" "payment_failed" } }] := by
  simp [paymentFollowUp, hr, config.topics.payments.failed, config.topics.orders.cancelled]

/-- C1: for every product (stock `s = product.stock`) found at the drawn index
and every delta `d`, `simulateInventoryUpdate` returns, and the first envelope
it hands to `publishEvent` goes to the inventory `updated` topic and is the
`InventoryUpdated` event with `previousStock = s`, `change = d` and
`currentStock = max 0 (s + d)`, which is never negative; a connected session
whose `send` accepts the message puts exactly that envelope on the wire. -/
theorem C1_inventoryUpdated_envelope {α : Type} (products : List (Product α)) (index : Int)
    (product : Product α) (d : Int) (now : Nat → Nat)
    (h : arrayAt products index = some product) :
    (∃ newProducts rest,
      simulateInventoryUpdateWith products index d now =
        some (newProducts,
          { topicName := "ecommerce/inventory/updated"
            eventData :=
              { eventType := "InventoryUpdated"
                timestamp := now 0
                correlationId := none
                data := .inventoryUpdated product.id product.name product.stock
                  (max 0 (product.stock + d)) d } } :: rest)) ∧
    0 ≤ max 0 (product.stock + d) ∧
    (∀ rand : Nat → ℚ,
      getRandomInt (rand 0) 0 ((products.length : Int) - 1) = index →
      getRandomInt (rand 1) (-10) 20 = d →
      simulateInventoryUpdate products rand now =
        simulateInventoryUpdateWith products index d now) ∧
    (∀ (s : PublisherSession α) (dateNow : Nat) (call : PublishCall α),
      (∀ m, s.send m = .ok ()) →
      ((publishEvent (some s) dateNow call.topicName call.eventData).1.map
        fun m => (m.destination, m.attachment)) = [(call.topicName, call.eventData)]) := by
  refine ⟨?_, le_max_left _ _, ?_, ?_⟩
  · simp only [simulateInventoryUpdateWith, h, inventoryUpdateCalls,
      config.topics.inventory.updated]
    split_ifs <;> exact ⟨_, _, rfl⟩
  · intro rand h0 h1
    simp [simulateInventoryUpdate, h0, h1]
  · intro s dateNow call hs
    simp [publishEvent, hs]

/-- Witness of C1: product p1001 with stock 50 and delta -45. -/
theorem C1_inventoryUpdated_envelope_witness :
    arrayAt (products : List (Product ℚ)) 0 =
        some { id := "p1001", name := "Smartphone", category := "electronics",
               price := 699.99, stock := 50 } ∧
    ∃ newProducts rest,
      simulateInventoryUpdateWith (products : List (Product ℚ)) 0 (-45) (fun _ => 0) =
        some (newProducts,
          { topicName := "ecommerce/inventory/updated"
            eventData :=
              { eventType := "InventoryUpdated"
                timestamp := 0
                correlationId := none
                data := .inventoryUpdated "p1001" "Smartphone" 50 5 (-45) } } :: rest) :=
  ⟨rfl, (C1_inventoryUpdated_envelope (products : List (Product ℚ)) 0
    { id := "p1001", name := "Smartphone", category := "electronics",
      price := 699.99, stock := 50 } (-45) (fun _ => 0) rfl).1⟩

/-- C2: for every product found at the drawn index (stock `s`) and delta `d`,
with `c = max 0 (s + d)`, the envelopes `simulateInventoryUpdate` publishes are
in order `InventoryUpdated`, then `LowStock` (currentStock `c`, threshold 10)
exactly when `0 < c ≤ 10`, then `OutOfStock` exactly when `c = 0`; `LowStock`
and `OutOfStock` are never both published. -/
theorem C2_inventory_event_sequence {α : Type} (products : List (Product α)) (index : Int)
    (product : Product α) (d : Int) (now : Nat → Nat)
    (h : arrayAt products index = some product) :
    ∃ newProducts calls,
      simulateInventoryUpdateWith products index d now = some (newProducts, calls) ∧
      calls =
        [{ topicName := "ecommerce/inventory/updated"
           eventData :=
             { eventType := "InventoryUpdated"
               timestamp := now 0
               correlationId := none
               data := .inventoryUpdated product.id product.name product.stock
                 (max 0 (product.stock + d)) d } }] ++
        (if 0 < max 0 (product.stock + d) ∧ max 0 (product.stock + d) ≤ 10 then
          [{ topicName := "ecommerce/inventory/low-stock"
             eventData :=
               { eventType := "LowStock"
                 timestamp := now 1
                 correlationId := none
                 data := .lowStock product.id product.name (max 0 (product.stock + d)) 10 } }]
         else []) ++
        (if max 0 (product.stock + d) = 0 then
          [{ topicName := "ecommerce/inventory/out-of-stock"
             eventData :=
               { eventType := "OutOfStock"
                 timestamp := now 2
                 correlationId := none
                 data := .outOfStock product.id product.name (now 3) } }]
         else []) ∧
      ((∃ call ∈ calls, call.eventData.eventType = "LowStock") ↔
        (0 < max 0 (product.stock + d) ∧ max 0 (product.stock + d) ≤ 10)) ∧
      ((∃ call ∈ calls, call.eventData.eventType = "OutOfStock") ↔
        max 0 (product.stock + d) = 0) ∧
      ¬ ((∃ call ∈ calls, call.eventData.eventType = "LowStock") ∧
          (∃ call ∈ calls, call.eventData.eventType = "OutOfStock")) := by
  simp only [simulateInventoryUpdateWith, h, inventoryUpdateCalls,
    config.topics.inventory.updated, config.topics.inventory.lowStock,
    config.topics.inventory.outOfStock]
  generalize max 0 (product.stock + d) = c
  refine ⟨_, _, rfl, ?_⟩
  by_cases h1 : 0 < c ∧ c ≤ 10
  · have h2 : c ≠ 0 := by omega
    simp [h1, h2]
  · by_cases h2 : c = 0
    · simp [h2]
    · simp [h1, h2]

/-- Witness of C2: product p1001 with stock 50 and delta -45 gives
`InventoryUpdated` followed by `LowStock` (current 5, threshold 10). -/
theorem C2_inventory_event_sequence_witness :
    arrayAt (products : List (Product ℚ)) 0 =
        some { id := "p1001", name := "Smartphone", category := "electronics",
               price := 699.99, stock := 50 } ∧
    ((simulateInventoryUpdateWith (products : List (Product ℚ)) 0 (-45) (fun k => k)).map
        fun r => r.2.map fun call => call.eventData.data) =
      some [.inventoryUpdated "p1001" "Smartphone" 50 5 (-45),
            .lowStock "p1001" "Smartphone" 5 10] := by
  refine ⟨rfl, ?_⟩
  obtain ⟨newProducts, calls, hsim, hcalls, -⟩ :=
    C2_inventory_event_sequence (products : List (Product ℚ)) 0
      { id := "p1001", name := "Smartphone", category := "electronics",
        price := 699.99, stock := 50 } (-45) (fun k => k) rfl
  rw [hsim, hcalls]
  simp

/-- C3 fails as stated: the `OrderCreated` envelope of an order carries no
`correlationId` at all. -/
theorem C3_orderCreated_without_correlationId :
    (simulateOrderCreationWith
        (some { id := "c101", name := "Alice Johnson", email := "alice@example.com" })
        "ord-1700000000000-1234" 1
        (fun _ => some ({ id := "p1001", name := "Smartphone", category := "electronics",
                          price := (699.99 : ℚ), stock := 50 }, 1))
        (fun _ => 0)).map (fun r => (r.1.eventData.eventType, r.1.eventData.correlationId)) =
      some ("OrderCreated", none) := by
  simp [simulateOrderCreationWith, orderItemsLoop]

/-- C3 as amended: for every simulated order (any customer, order identifier
and sequence of selections), `simulateOrderCreation` returns; its `OrderCreated`
envelope carries no `correlationId` and has the order identifier as
`data.orderId`; both follow-up envelopes, on either payment branch, carry a
`correlationId`, and the two are identical and equal to that order
identifier. -/
theorem C3_followups_correlate_to_orderId {α : Type} [Zero α] [Add α] [Mul α] [IntCast α]
    (customer : Customer) (orderId : String) (sels : List (Product α × Int))
    (select : Nat → Option (Product α × Int)) (now : Nat → Nat)
    (hsel : ∀ j (hj : j < sels.length), select j = some (sels.get ⟨j, hj⟩)) :
    ∃ call pending,
      simulateOrderCreationWith (some customer) orderId (sels.length : Int) select now =
        some (call, pending) ∧
      call.eventData.eventType = "OrderCreated" ∧
      call.eventData.correlationId = none ∧
      call.eventData.data.orderId? = some orderId ∧
      ∀ (r : ℚ) (now2 : Nat → Nat),
        ∃ payment order, paymentFollowUp pending r now2 = [payment, order] ∧
          payment.eventData.correlationId = some orderId ∧
          order.eventData.correlationId = some orderId := by
  have hloop := orderItemsLoop_eq select sels 0 ([], 0) (by simpa using hsel)
  have hsim : simulateOrderCreationWith (some customer) orderId (sels.length : Int) select now =
      some
        ({ topicName := config.topics.orders.created
           eventData :=
             { eventType := "OrderCreated"
               timestamp := now 1
               correlationId := none
               data := .orderCreated orderId customer.id customer.name (now 2)
                 (sels.map (fun s => orderItem s.1 s.2))
                 (sels.foldl (fun t s => t + s.1.price * (s.2 : α)) 0) "created" } },
         { orderId := orderId, customer := customer,
           totalAmount := sels.foldl (fun t s => t + s.1.price * (s.2 : α)) 0,
           delayMs := 2000 }) := by
    simp only [simulateOrderCreationWith, Int.toNat_ofNat, hloop, List.nil_append]
  refine ⟨_, _, hsim, rfl, rfl, rfl, ?_⟩
  intro r now2
  by_cases hr : r > pointOne
  · rw [paymentFollowUp_success _ _ _ hr]
    exact ⟨_, _, rfl, rfl, rfl⟩
  · rw [paymentFollowUp_failure _ _ _ hr]
    exact ⟨_, _, rfl, rfl, rfl⟩

/-- Witness of C3 as amended: an order of one Smartphone for Alice. -/
theorem C3_followups_correlate_to_orderId_witness :
    ∃ call pending,
      simulateOrderCreationWith
        (some { id := "c101", name := "Alice Johnson", email := "alice@example.com" })
        "ord-1700000000000-1234" 1
        (fun _ => some ({ id := "p1001", name := "Smartphone", category := "electronics",
                          price := (699.99 : ℚ), stock := 50 }, 1))
        (fun k => k) = some (call, pending) ∧
      call.eventData.correlationId = none ∧
      ∀ (r : ℚ) (now2 : Nat → Nat),
        ∃ payment order, paymentFollowUp pending r now2 = [payment, order] ∧
          payment.eventData.correlationId = some "ord-1700000000000-1234" ∧
          order.eventData.correlationId = some "ord-1700000000000-1234" := by
  obtain ⟨call, pending, hsim, -, hnone, -, hfollow⟩ :=
    C3_followups_correlate_to_orderId
      { id := "c101", name := "Alice Johnson", email := "alice@example.com" }
      "ord-1700000000000-1234"
      [({ id := "p1001", name := "Smartphone", category := "electronics",
          price := (699.99 : ℚ), stock := 50 }, 1)]
      (fun _ => some ({ id := "p1001", name := "Smartphone", category := "electronics",
                        price := (699.99 : ℚ), stock := 50 }, 1))
      (fun k => k) (by intro j hj; simp at hj; subst hj; rfl)
  exact ⟨call, pending, hsim, hnone, hfollow⟩

/-- C4: for every sequence `sels` of selected products and quantities (the
selections of the loop iterations, in order), `simulateOrderCreation` returns
and its `OrderCreated` envelope has one line per selection with `unitPrice` the
product price, the selected quantity and `subtotal = unitPrice * quantity`;
`totalAmount` is the sum of the line subtotals (added in line order starting
from `0`) and `status` is `"created"`. -/
theorem C4_orderCreated_totals {α : Type} [Zero α] [Add α] [Mul α] [IntCast α]
    (customer : Customer) (orderId : String) (sels : List (Product α × Int))
    (select : Nat → Option (Product α × Int)) (now : Nat → Nat)
    (hsel : ∀ j (hj : j < sels.length), select j = some (sels.get ⟨j, hj⟩)) :
    ∃ items totalAmount pending,
      simulateOrderCreationWith (some customer) orderId (sels.length : Int) select now =
        some ({ topicName := "ecommerce/orders/created"
                eventData :=
                  { eventType := "OrderCreated"
                    timestamp := now 1
                    correlationId := none
                    data := .orderCreated orderId customer.id customer.name (now 2) items
                      totalAmount "created" } }, pending) ∧
      pending.totalAmount = totalAmount ∧
      items.map (fun item => item.unitPrice) = sels.map (fun s => s.1.price) ∧
      items.map (fun item => item.quantity) = sels.map (fun s => s.2) ∧
      (∀ item ∈ items, item.subtotal = item.unitPrice * (item.quantity : α)) ∧
      totalAmount = (items.map fun item => item.subtotal).foldl (fun t x => t + x) 0 := by
  have hloop := orderItemsLoop_eq select sels 0 ([], 0) (by simpa using hsel)
  refine ⟨sels.map (fun s => orderItem s.1 s.2),
    sels.foldl (fun t s => t + s.1.price * (s.2 : α)) 0,
    { orderId := orderId, customer := customer,
      totalAmount := sels.foldl (fun t s => t + s.1.price * (s.2 : α)) 0, delayMs := 2000 },
    ?_, rfl, ?_, ?_, ?_, ?_⟩
  · simp only [simulateOrderCreationWith, Int.toNat_ofNat, hloop, List.nil_append,
      config.topics.orders.created]
  · simp [orderItem]
  · simp [orderItem]
  · intro item hitem
    simp only [List.mem_map] at hitem
    obtain ⟨s, -, rfl⟩ := hitem
    rfl
  · rw [List.foldl_map, List.foldl_map]
    rfl

/-- Witness of C4: a single line with unit price 699.99 and quantity 1 gives
total amount 699.99. -/
theorem C4_orderCreated_totals_witness :
    (∃ items totalAmount pending,
      simulateOrderCreationWith
        (some { id := "c101", name := "Alice Johnson", email := "alice@example.com" })
        "ord-1700000000000-1234" 1
        (fun _ => some ({ id := "p1001", name := "Smartphone", category := "electronics",
                          price := (699.99 : ℚ), stock := 50 }, 1))
        (fun k => k) =
      some ({ topicName := "ecommerce/orders/created"
              eventData :=
                { eventType := "OrderCreated"
                  timestamp := 1
                  correlationId := none
                  data := .orderCreated "ord-1700000000000-1234" "c101" "Alice Johnson" 2 items
                    totalAmount "created" } }, pending) ∧
      totalAmount = (items.map fun item => item.subtotal).foldl (fun t x => t + x) 0) ∧
    (simulateOrderCreationWith
        (some { id := "c101", name := "Alice Johnson", email := "alice@example.com" })
        "ord-1700000000000-1234" 1
        (fun _ => some ({ id := "p1001", name := "Smartphone", category := "electronics",
                          price := (699.99 : ℚ), stock := 50 }, 1))
        (fun k => k)).map (fun r => r.2.totalAmount) = some 699.99 := by
  constructor
  · obtain ⟨items, totalAmount, pending, hsim, -, -, -, -, htotal⟩ :=
      C4_orderCreated_totals
        { id := "c101", name := "Alice Johnson", email := "alice@example.com" }
        "ord-1700000000000-1234"
        [({ id := "p1001", name := "Smartphone", category := "electronics",
            price := (699.99 : ℚ), stock := 50 }, 1)]
        (fun _ => some ({ id := "p1001", name := "Smartphone", category := "electronics",
                          price := (699.99 : ℚ), stock := 50 }, 1))
        (fun k => k) (by intro j hj; simp at hj; subst hj; rfl)
    exact ⟨items, totalAmount, pending, hsim, htotal⟩
  · simp [simulateOrderCreationWith, orderItemsLoop]

/-- C5: for every order and every payment draw `r`, the delayed follow-up
publishes exactly two envelopes: when `r > 0.1`, `PaymentAuthorized` (with a
transaction id) immediately followed by `OrderUpdated` (`created` to `paid`,
reason `payment_received`); otherwise `PaymentFailed` (reason
`insufficient_funds`) followed by `OrderCancelled` (reason `payment_failed`);
never a mixture. -/
theorem C5_followup_two_envelopes {α : Type} (p : PendingPayment α) (r : ℚ)
    (now : Nat → Nat) :
    (paymentFollowUp p r now).length = 2 ∧
    ((r > pointOne ∧
      paymentFollowUp p r now =
        [{ topicName := "ecommerce/payments/authorized"
           eventData :=
             { eventType := "PaymentAuthorized"
               timestamp := now 0
               correlationId := some p.orderId
               data := .paymentAuthorized p.orderId p.customer.id p.totalAmount "credit_card"
                 ("tx-" ++ toString (now 1)) } },
         { topicName := "ecommerce/orders/updated"
           eventData :=
             { eventType := "OrderUpdated"
               timestamp := now 2
               correlationId := some p.orderId
               data := .orderUpdated p.orderId "created" "paid" "payment_received" } }]) ∨
     (¬ r > pointOne ∧
      paymentFollowUp p r now =
        [{ topicName := "ecommerce/payments/failed"
           eventData :=
             { eventType := "PaymentFailed"
               timestamp := now 3
               correlationId := some p.orderId
               data := .paymentFailed p.orderId p.customer.id p.totalAmount "credit_card"
                 "insufficient_funds" } },
         { topicName := "ecommerce/orders/cancelled"
           eventData :=
             { eventType := "OrderCancelled"
               timestamp := now 4
               correlationId := some p.orderId
               data := .orderCancelled p.orderId "created" "payment_failed" } }])) ∧
    ((paymentFollowUp p r now).map (fun call => call.eventData.eventType) =
        ["PaymentAuthorized", "OrderUpdated"] ∨
      (paymentFollowUp p r now).map (fun call => call.eventData.eventType) =
        ["PaymentFailed", "OrderCancelled"]) := by
  by_cases hr : r > pointOne
  · rw [paymentFollowUp_success p r now hr]
    exact ⟨rfl, Or.inl ⟨hr, rfl⟩, Or.inl rfl⟩
  · rw [paymentFollowUp_failure p r now hr]
    exact ⟨rfl, Or.inr ⟨hr, rfl⟩, Or.inr rfl⟩

/-! ## The subscription registry -/

theorem mapGet_mapSet (m : List (String × Subscription)) (key : String) (value : Subscription)
    (k : String) :
    mapGet (mapSet m key value) k = if key = k then some value else mapGet m k := by
  induction m with
  | nil => simp [mapSet, mapGet]
  | cons entry rest ih =>
    obtain ⟨k0, v0⟩ := entry
    by_cases h0 : k0 = key
    · subst h0
      by_cases h1 : k0 = k <;> simp [mapSet, mapGet, h1]
    · by_cases h1 : k0 = k
      · subst h1
        have h2 : ¬ key = k0 := fun h => h0 h.symm
        simp [mapSet, mapGet, h0, h2]
      · simp [mapSet, mapGet, h0, h1, ih]

/-- In a map whose keys are distinct, a key that is present has exactly one
entry. -/
theorem entryCount_eq_one (m : List (String × Subscription)) (key : String)
    (hnodup : (m.map fun entry => entry.1).Nodup) (hhas : mapHas m key = true) :
    entryCount m key = 1 := by
  induction m with
  | nil => simp [mapHas, mapGet] at hhas
  | cons entry rest ih =>
    obtain ⟨k0, v0⟩ := entry
    simp only [List.map_cons, List.nodup_cons, List.mem_map, not_exists, not_and] at hnodup
    by_cases h0 : k0 = key
    · subst h0
      have hnone : rest.filter (fun entry => decide (entry.1 = k0)) = [] := by
        rw [List.filter_eq_nil_iff]
        intro e he
        simpa using fun h => hnodup.1 e he h
      simp [entryCount, hnone]
    · have hrest : mapHas rest key = true := by
        simpa [mapHas, mapGet, h0] using hhas
      have := ih hnodup.2 hrest
      simpa [entryCount, h0] using this

/-- C6: in every registry state with the session up, registering a pattern that
is already present writes the duplicate report and changes nothing else: no
request is issued, the map is the same, so the existing description and active
flag are kept, and the map (a JavaScript `Map`, keys distinct) still holds
exactly one entry for the pattern. -/
theorem C6_duplicate_subscribe_is_reported (st : SubscriberState)
    (topicName description : String) (outcome : Except String Unit)
    (hsession : st.session = true)
    (hnodup : (st.subscriptions.map fun entry => entry.1).Nodup)
    (hhas : mapHas st.subscriptions topicName = true) :
    (subscribe st topicName description outcome).log =
      st.log ++ ["Already subscribed to \"" ++ topicName ++ "\""] ∧
    (subscribe st topicName description outcome).subscriptions = st.subscriptions ∧
    (subscribe st topicName description outcome).requests = st.requests ∧
    (subscribe st topicName description outcome).session = st.session ∧
    mapGet (subscribe st topicName description outcome).subscriptions topicName =
      mapGet st.subscriptions topicName ∧
    entryCount (subscribe st topicName description outcome).subscriptions topicName = 1 := by
  have hsub : subscribe st topicName description outcome =
      st.consoleLog ("Already subscribed to \"" ++ topicName ++ "\"") := by
    simp [subscribe, hsession, hhas]
  rw [hsub]
  exact ⟨rfl, rfl, rfl, rfl, rfl, entryCount_eq_one _ _ hnodup hhas⟩

/-- Witness of C6: registering `ecommerce/>` a second time, with another
description, after its confirmation. -/
theorem C6_duplicate_subscribe_is_reported_witness :
    (subscribe
      { session := true
        subscriptions := [("ecommerce/>", { description := "All", active := true })]
        requests := [.subscribe "ecommerce/>" true "ecommerce/>" 10000]
        log := [] }
      "ecommerce/>" "Again" (.ok ())).subscriptions =
      [("ecommerce/>", { description := "All", active := true })] :=
  (C6_duplicate_subscribe_is_reported
    { session := true
      subscriptions := [("ecommerce/>", { description := "All", active := true })]
      requests := [.subscribe "ecommerce/>" true "ecommerce/>" 10000]
      log := [] }
    "ecommerce/>" "Again" (.ok ()) rfl (by simp) (by decide)).2.1

/-- C7 fails as stated: with no session (and hence an empty registry) the
pattern is missing, yet `unsubscribe` reports "not connected", not "not
subscribed". -/
theorem C7_unsubscribe_without_session :
    mapHas SubscriberState.initial.subscriptions "ecommerce/orders/*" = false ∧
    (unsubscribe SubscriberState.initial "ecommerce/orders/*" (.ok ())).log =
      ["Cannot unsubscribe because not connected to Solace message router."] ∧
    "Cannot unsubscribe because not subscribed to the topic \"ecommerce/orders/*\"" ∉
      (unsubscribe SubscriberState.initial "ecommerce/orders/*" (.ok ())).log := by
  decide

/-- C7 as amended: for every registry state and every pattern that is missing
or present but inactive, `unsubscribe` issues no request to the transport and
leaves the registry (and the session) unchanged; what it reports is the "not
subscribed" condition while the session is up and the "not connected" condition
otherwise. -/
theorem C7_unsubscribe_missing_or_inactive (st : SubscriberState) (topicName : String)
    (outcome : Except String Unit) (hinactive : isActive st topicName = false) :
    (unsubscribe st topicName outcome).requests = st.requests ∧
    (unsubscribe st topicName outcome).subscriptions = st.subscriptions ∧
    (unsubscribe st topicName outcome).session = st.session ∧
    (unsubscribe st topicName outcome).log = st.log ++
      [if st.session then
        "Cannot unsubscribe because not subscribed to the topic \"" ++ topicName ++ "\""
      else "Cannot unsubscribe because not connected to Solace message router."] := by
  have hcond : (mapHas st.subscriptions topicName &&
      ((mapGet st.subscriptions topicName).map fun v => v.active) == some true) = false := by
    unfold isActive at hinactive
    cases hget : mapGet st.subscriptions topicName with
    | none => simp [mapHas, hget]
    | some v =>
      rw [hget] at hinactive
      have hv : v.active = false := hinactive
      simp [mapHas, hget, hv]
  by_cases hsession : st.session = true
  · simp [unsubscribe, hsession, hcond, SubscriberState.consoleLog]
  · simp [unsubscribe, hsession, SubscriberState.consoleLog]

/-- Witness of C7 as amended: a pattern that was never registered, session up. -/
theorem C7_unsubscribe_missing_or_inactive_witness :
    (unsubscribe { session := true, subscriptions := [], requests := [], log := [] }
      "ecommerce/orders/*" (.ok ())).log =
      ["Cannot unsubscribe because not subscribed to the topic \"ecommerce/orders/*\""] :=
  (C7_unsubscribe_missing_or_inactive
    { session := true, subscriptions := [], requests := [], log := [] }
    "ecommerce/orders/*" (.ok ()) rfl).2.2.2

theorem subscribe_isActive (st : SubscriberState) (topicName description : String)
    (outcome : Except String Unit) (p : String)
    (h : isActive (subscribe st topicName description outcome) p = true) :
    isActive st p = true := by
  unfold subscribe at h
  split at h
  · split at h
    · exact h
    · cases outcome with
      | error e => exact h
      | ok u =>
        simp only [isActive, SubscriberState.consoleLog, mapGet_mapSet] at h
        by_cases hk : topicName = p
        · simp [hk] at h
        · simpa [isActive, hk] using h
  · exact h

theorem unsubscribe_subscriptions (st : SubscriberState) (topicName : String)
    (outcome : Except String Unit) :
    (unsubscribe st topicName outcome).subscriptions = st.subscriptions := by
  unfold unsubscribe
  split
  · split
    · cases outcome <;> rfl
    · rfl
  · rfl

theorem unsubscribe_session (st : SubscriberState) (topicName : String)
    (outcome : Except String Unit) :
    (unsubscribe st topicName outcome).session = st.session := by
  unfold unsubscribe
  split
  · split
    · cases outcome <;> rfl
    · rfl
  · rfl

theorem unsubscribeAll_subscriptions (st : SubscriberState)
    (outcomes : String → Except String Unit) :
    (unsubscribeAll st outcomes).subscriptions = st.subscriptions := by
  have hfold : ∀ (l : List (String × Subscription)) (acc : SubscriberState),
      (l.foldl (fun acc entry =>
        if entry.2.active then unsubscribe acc entry.1 (outcomes entry.1) else acc)
        acc).subscriptions = acc.subscriptions := by
    intro l
    induction l with
    | nil => intro acc; rfl
    | cons entry rest ih =>
      intro acc
      simp only [List.foldl_cons]
      rw [ih]
      split
      · exact unsubscribe_subscriptions _ _ _
      · rfl
  unfold unsubscribeAll
  split
  · exact hfold _ _
  · rfl

theorem disconnect_subscriptions (st : SubscriberState)
    (outcomes : String → Except String Unit) (disconnectOutcome : Except String Unit) :
    (disconnect st outcomes disconnectOutcome).subscriptions = st.subscriptions := by
  unfold disconnect
  simp only
  split
  · cases disconnectOutcome <;> exact unsubscribeAll_subscriptions _ _
  · exact unsubscribeAll_subscriptions _ _

theorem showSubscriptions_subscriptions (st : SubscriberState) :
    (showSubscriptions st).subscriptions = st.subscriptions := by
  have hfold : ∀ (l : List (String × Subscription)) (acc : SubscriberState),
      (l.foldl (fun acc entry =>
        acc.consoleLog ((if entry.2.active then "✅" else "❌") ++ " " ++ entry.1 ++ " - " ++
          entry.2.description)) acc).subscriptions = acc.subscriptions := by
    intro l
    induction l with
    | nil => intro acc; rfl
    | cons entry rest ih => intro acc; simp only [List.foldl_cons]; rw [ih]; rfl
  unfold showSubscriptions
  simp only [SubscriberState.consoleLog]
  split
  · rfl
  · exact hfold _ _

theorem connect_subscriptions (st : SubscriberState) (outcome : ConnectOutcome) :
    (connect st outcome).subscriptions = st.subscriptions := by
  unfold connect
  split
  · rfl
  · cases outcome <;> rfl

theorem isActive_congr (st st2 : SubscriberState) (p : String)
    (h : st2.subscriptions = st.subscriptions) : isActive st2 p = isActive st p := by
  simp [isActive, h]

/-- A step can only turn an entry active if it is the `SUBSCRIPTION_OK`
listener for that key, run while the key is registered. -/
theorem step_isActive (st : SubscriberState) (a : Action) (p : String)
    (h : isActive (step st a) p = true) :
    isActive st p = true ∨
      (a = .subscriptionOk p ∧ mapHas st.subscriptions p = true) := by
  cases a with
  | connect outcome =>
    left; rw [← isActive_congr st _ p (connect_subscriptions st outcome)]; exact h
  | subscribe topicName description outcome =>
    left; exact subscribe_isActive st topicName description outcome p h
  | unsubscribe topicName outcome =>
    left; rw [← isActive_congr st _ p (unsubscribe_subscriptions st topicName outcome)]; exact h
  | unsubscribeAll outcomes =>
    left; rw [← isActive_congr st _ p (unsubscribeAll_subscriptions st outcomes)]; exact h
  | disconnect outcomes disconnectOutcome =>
    left
    rw [← isActive_congr st _ p (disconnect_subscriptions st outcomes disconnectOutcome)]
    exact h
  | showSubscriptions =>
    left; rw [← isActive_congr st _ p (showSubscriptions_subscriptions st)]; exact h
  | upNotice outcomes =>
    left
    simp only [step, onUpNotice, setupSubscriptions] at h
    have h1 := subscribe_isActive _ _ _ _ _ h
    have h2 := subscribe_isActive _ _ _ _ _ h1
    have h3 := subscribe_isActive _ _ _ _ _ h2
    have h4 := subscribe_isActive _ _ _ _ _ h3
    have h5 := subscribe_isActive _ _ _ _ _ h4
    have h6 := subscribe_isActive _ _ _ _ _ h5
    exact h6
  | connectFailed infoStr => left; exact h
  | disconnected =>
    left
    simp only [step, onDisconnected] at h
    split at h
    · simp [isActive, SubscriberState.consoleLog, mapGet] at h
    · exact h
  | subscriptionOk key =>
    simp only [step, onSubscriptionOk] at h
    cases hget : mapGet st.subscriptions key with
    | none => rw [hget] at h; left; exact h
    | some subscription =>
      rw [hget] at h
      by_cases hk : key = p
      · right
        subst hk
        exact ⟨rfl, by simp [mapHas, hget]⟩
      · left
        simpa [isActive, SubscriberState.consoleLog, mapGet_mapSet, hk] using h
  | subscriptionError key =>
    left
    simp only [step, onSubscriptionError] at h
    cases hget : mapGet st.subscriptions key with
    | none =>
      simp only [SubscriberState.consoleLog, hget] at h
      exact h
    | some subscription =>
      simp only [SubscriberState.consoleLog, hget] at h
      by_cases hk : key = p
      · simp [isActive, mapGet_mapSet, hk] at h
      · simpa [isActive, mapGet_mapSet, hk] using h

theorem run_append (st : SubscriberState) (l : List Action) (a : Action) :
    run st (l ++ [a]) = step (run st l) a := by
  simp [run, List.foldl_append]

/-! ## Reachable registries are maps: keys are distinct -/

theorem mem_keys_mapSet (m : List (String × Subscription)) (key : String)
    (value : Subscription) (k : String) :
    k ∈ (mapSet m key value).map (fun entry => entry.1) ↔
      k ∈ m.map (fun entry => entry.1) ∨ k = key := by
  induction m with
  | nil => simp [mapSet]
  | cons entry rest ih =>
    obtain ⟨k0, v0⟩ := entry
    by_cases h0 : k0 = key
    · subst h0
      simp only [mapSet, if_true, List.map_cons, List.mem_cons]
      tauto
    · simp only [mapSet, h0, if_false, List.map_cons, List.mem_cons, ih]
      tauto

theorem mapSet_keys_nodup (m : List (String × Subscription)) (key : String)
    (value : Subscription) (h : (m.map fun entry => entry.1).Nodup) :
    ((mapSet m key value).map fun entry => entry.1).Nodup := by
  induction m with
  | nil => simp [mapSet]
  | cons entry rest ih =>
    obtain ⟨k0, v0⟩ := entry
    simp only [List.map_cons, List.nodup_cons] at h
    by_cases h0 : k0 = key
    · subst h0
      simpa [mapSet] using h
    · simp only [mapSet, h0, if_false, List.map_cons, List.nodup_cons]
      refine ⟨?_, ih h.2⟩
      rw [mem_keys_mapSet]
      rintro (hmem | hkey)
      · exact h.1 hmem
      · exact h0 hkey

theorem subscribe_keys_nodup (st : SubscriberState) (topicName description : String)
    (outcome : Except String Unit) (h : (st.subscriptions.map fun entry => entry.1).Nodup) :
    ((subscribe st topicName description outcome).subscriptions.map
      fun entry => entry.1).Nodup := by
  unfold subscribe
  split
  · split
    · exact h
    · cases outcome with
      | error e => exact h
      | ok u => exact mapSet_keys_nodup _ _ _ h
  · exact h

theorem step_keys_nodup (st : SubscriberState) (a : Action)
    (h : (st.subscriptions.map fun entry => entry.1).Nodup) :
    ((step st a).subscriptions.map fun entry => entry.1).Nodup := by
  cases a with
  | connect outcome => simp only [step, connect_subscriptions]; exact h
  | subscribe topicName description outcome => exact subscribe_keys_nodup _ _ _ _ h
  | unsubscribe topicName outcome => simp only [step, unsubscribe_subscriptions]; exact h
  | unsubscribeAll outcomes => simp only [step, unsubscribeAll_subscriptions]; exact h
  | disconnect outcomes disconnectOutcome =>
    simp only [step, disconnect_subscriptions]; exact h
  | showSubscriptions => simp only [step, showSubscriptions_subscriptions]; exact h
  | upNotice outcomes =>
    simp only [step, onUpNotice, setupSubscriptions]
    exact subscribe_keys_nodup _ _ _ _ (subscribe_keys_nodup _ _ _ _
      (subscribe_keys_nodup _ _ _ _ (subscribe_keys_nodup _ _ _ _
        (subscribe_keys_nodup _ _ _ _ (subscribe_keys_nodup _ _ _ _ h)))))
  | connectFailed infoStr => exact h
  | disconnected =>
    simp only [step, onDisconnected]
    split
    · simp [SubscriberState.consoleLog]
    · exact h
  | subscriptionOk key =>
    simp only [step, onSubscriptionOk]
    cases hget : mapGet st.subscriptions key with
    | none => exact h
    | some subscription => exact mapSet_keys_nodup _ _ _ h
  | subscriptionError key =>
    simp only [step, onSubscriptionError]
    cases hget : mapGet st.subscriptions key with
    | none => simpa [SubscriberState.consoleLog, hget] using h
    | some subscription =>
      simp only [SubscriberState.consoleLog, hget]
      exact mapSet_keys_nodup _ _ _ h

/-- Every registry reachable from the initial state has distinct keys. -/
theorem run_keys_nodup (actions : List Action) :
    ((run SubscriberState.initial actions).subscriptions.map fun entry => entry.1).Nodup := by
  induction actions using List.reverseRecOn with
  | nil => simp [run, SubscriberState.initial]
  | append_singleton l a ih => rw [run_append]; exact step_keys_nodup _ _ ih

/-- The trace part of C8: an entry that is active at the end of a run was
turned active by a `SUBSCRIPTION_OK` for its key, received while the key was
registered and inactive, and it has been active after every step since. -/
theorem active_since_confirmation (actions : List Action) (p : String) :
    isActive (run SubscriberState.initial actions) p = true →
    ∃ pre post, actions = pre ++ Action.subscriptionOk p :: post ∧
      mapHas (run SubscriberState.initial pre).subscriptions p = true ∧
      isActive (run SubscriberState.initial pre) p = false ∧
      ∀ k, isActive
        (run SubscriberState.initial (pre ++ Action.subscriptionOk p :: post.take k)) p = true := by
  induction actions using List.reverseRecOn with
  | nil => intro h; simp [run, SubscriberState.initial, isActive, mapGet] at h
  | append_singleton l a ih =>
    intro h
    by_cases hbefore : isActive (run SubscriberState.initial l) p = true
    · obtain ⟨pre, post, hl, hhas, hinactive, hsince⟩ := ih hbefore
      refine ⟨pre, post ++ [a], by simp [hl], hhas, hinactive, ?_⟩
      intro k
      by_cases hk : k ≤ post.length
      · rw [List.take_append_of_le_length hk]
        exact hsince k
      · have htake : (post ++ [a]).take k = post ++ [a] :=
          List.take_of_length_le (by simp; omega)
        rw [htake]
        have : pre ++ Action.subscriptionOk p :: (post ++ [a]) = l ++ [a] := by simp [hl]
        rw [this]
        exact h
    · rw [run_append] at h
      rcases step_isActive _ _ _ h with h1 | ⟨ha, hhas⟩
      · exact absurd h1 hbefore
      · subst ha
        refine ⟨l, [], rfl, hhas, by simpa using hbefore, ?_⟩
        intro k
        rw [List.take_nil, run_append]
        exact h

/-- C8: an entry is inactive when `subscribe` first registers it; no step
other than the `SUBSCRIPTION_OK` listener for that pattern turns an inactive or
missing entry active; and in every state reachable from the initial one, an
entry that is active was confirmed by a `SUBSCRIPTION_OK` for its pattern
received while it was registered, and has stayed active since. -/
theorem C8_active_only_after_confirmation (actions : List Action) (p : String)
    (hactive : isActive (run SubscriberState.initial actions) p = true) :
    (∀ (st : SubscriberState) (description : String),
      st.session = true → mapHas st.subscriptions p = false →
      mapGet (subscribe st p description (.ok ())).subscriptions p =
        some { description := description, active := false }) ∧
    (∀ (st : SubscriberState) (a : Action),
      isActive st p = false → isActive (step st a) p = true → a = .subscriptionOk p) ∧
    ∃ pre post, actions = pre ++ Action.subscriptionOk p :: post ∧
      mapHas (run SubscriberState.initial pre).subscriptions p = true ∧
      isActive (run SubscriberState.initial pre) p = false ∧
      ∀ k, isActive
        (run SubscriberState.initial (pre ++ Action.subscriptionOk p :: post.take k)) p = true := by
  refine ⟨?_, ?_, active_since_confirmation actions p hactive⟩
  · intro st description hsession hhas
    simp [subscribe, hsession, hhas, SubscriberState.consoleLog, mapGet_mapSet]
  · intro st a hbefore hafter
    rcases step_isActive st a p hafter with h1 | ⟨ha, -⟩
    · rw [hbefore] at h1
      exact absurd h1 (by simp)
    · exact ha

/-- Witness of C8: connect, register `ecommerce/>`, receive its confirmation. -/
theorem C8_active_only_after_confirmation_witness :
    isActive (run SubscriberState.initial
      [.connect .ok, .subscribe "ecommerce/>" "All" (.ok ()), .subscriptionOk "ecommerce/>"])
      "ecommerce/>" = true ∧
    ∃ pre post,
      [Action.connect .ok, .subscribe "ecommerce/>" "All" (.ok ()),
        .subscriptionOk "ecommerce/>"] = pre ++ Action.subscriptionOk "ecommerce/>" :: post ∧
      mapHas (run SubscriberState.initial pre).subscriptions "ecommerce/>" = true ∧
      isActive (run SubscriberState.initial pre) "ecommerce/>" = false ∧
      ∀ k, isActive (run SubscriberState.initial
        (pre ++ Action.subscriptionOk "ecommerce/>" :: post.take k)) "ecommerce/>" = true :=
  ⟨by decide,
    (C8_active_only_after_confirmation
      [.connect .ok, .subscribe "ecommerce/>" "All" (.ok ()), .subscriptionOk "ecommerce/>"]
      "ecommerce/>" (by decide)).2.2⟩

/-- C9 at the failing input: a pattern is subscribed and confirmed, then
unsubscribed, and the transport sends the confirmation of the removal that
`unsubscribe` asked for. The only `SUBSCRIPTION_OK` listener answers it as if
it confirmed a subscription: it sets `active = true` and logs "Successfully
subscribed" a second time. The entry of the removed pattern is still
registered and still active, where the code itself reads `active` as
"subscribed" (`unsubscribe`, `unsubscribeAll`, `showSubscriptions`). -/
theorem C9_entry_active_after_removal :
    (run SubscriberState.initial
      [.connect .ok, .subscribe "ecommerce/>" "All" (.ok ()), .subscriptionOk "ecommerce/>",
        .unsubscribe "ecommerce/>" (.ok ()), .subscriptionOk "ecommerce/>"]).requests =
      [.subscribe "ecommerce/>" true "ecommerce/>" 10000,
        .unsubscribe "ecommerce/>" true "ecommerce/>" 10000] ∧
    isActive (run SubscriberState.initial
      [.connect .ok, .subscribe "ecommerce/>" "All" (.ok ()), .subscriptionOk "ecommerce/>",
        .unsubscribe "ecommerce/>" (.ok ())]) "ecommerce/>" = true ∧
    isActive (run SubscriberState.initial
      [.connect .ok, .subscribe "ecommerce/>" "All" (.ok ()), .subscriptionOk "ecommerce/>",
        .unsubscribe "ecommerce/>" (.ok ()), .subscriptionOk "ecommerce/>"])
      "ecommerce/>" = true ∧
    (run SubscriberState.initial
      [.connect .ok, .subscribe "ecommerce/>" "All" (.ok ()), .subscriptionOk "ecommerce/>",
        .unsubscribe "ecommerce/>" (.ok ()), .subscriptionOk "ecommerce/>"]).subscriptions =
      [("ecommerce/>", { description := "All", active := true })] ∧
    (run SubscriberState.initial
      [.connect .ok, .subscribe "ecommerce/>" "All" (.ok ()), .subscriptionOk "ecommerce/>",
        .unsubscribe "ecommerce/>" (.ok ()), .subscriptionOk "ecommerce/>"]).log =
      ["Subscribing to topic: ecommerce/> (All)",
        "Successfully subscribed to topic: ecommerce/> (All)",
        "Unsubscribing from topic: ecommerce/>",
        "Successfully subscribed to topic: ecommerce/> (All)"] := by
  decide

/-- The failure listener deactivates: after `SUBSCRIPTION_ERROR` for a pattern,
that pattern's entry is not active, in every state. -/
theorem onSubscriptionError_not_active (st : SubscriberState) (p : String) :
    isActive (onSubscriptionError st p) p = false := by
  unfold onSubscriptionError
  cases hget : mapGet st.subscriptions p with
  | none => simp [SubscriberState.consoleLog, hget, isActive]
  | some subscription => simp [SubscriberState.consoleLog, hget, isActive, mapGet_mapSet]

/-- The confirmation listener does not tell a removal from an addition: in
every state, after `unsubscribe` and the `SUBSCRIPTION_OK` that follows it the
entry is active whenever the pattern is registered. -/
theorem unsubscribe_then_confirmation_active (st : SubscriberState) (p : String)
    (outcome : Except String Unit) :
    (unsubscribe st p outcome).subscriptions = st.subscriptions ∧
    isActive (onSubscriptionOk (unsubscribe st p outcome) p) p = mapHas st.subscriptions p := by
  refine ⟨unsubscribe_subscriptions st p outcome, ?_⟩
  unfold onSubscriptionOk
  rw [unsubscribe_subscriptions]
  cases hget : mapGet st.subscriptions p with
  | none => simp [isActive, unsubscribe_subscriptions, hget, mapHas]
  | some subscription =>
    simp [isActive, SubscriberState.consoleLog, mapGet_mapSet, mapHas, hget]

/-- C10 at the failing input: a body that does not parse, received on
`ecommerce/orders/created`. The parse error is reported and the raw text is
kept as the content, the four header lines are written, and then reading
`content.data.orderId` throws a `TypeError` that escapes `processMessage`. -/
theorem C10_parse_failure_on_leaf_topic_throws :
    (processMessage (fun _ => (.error "Unexpected token o in JSON at position 1" :
        Except String (JsVal ℚ)))
      { destination := "ecommerce/orders/created"
        binaryAttachment := some "not json"
        userPropertyMap := .ok none } 0).thrown =
      some (.typeError "Cannot read properties of undefined: orderId") ∧
    (processMessage (fun _ => (.error "Unexpected token o in JSON at position 1" :
        Except String (JsVal ℚ)))
      { destination := "ecommerce/orders/created"
        binaryAttachment := some "not json"
        userPropertyMap := .ok none } 0).lines =
      [[.text ("Error parsing message on topic ecommerce/orders/created: " ++
          "Unexpected token o in JSON at position 1")],
        [.text "\n🛒 ORDER EVENT:"],
        [.text "   Topic: ecommerce/orders/created"],
        [.text "   Time: 0"],
        [.text "   Type: ", .val .undefined]] := by
  constructor <;> rfl

/-! ## Category selection -/

/-- The branch `categoryLines` takes is the one `selectCategory cascade` names:
its lines start with the header of that category, and there are no lines at all
when no base path is a prefix of the topic. -/
theorem categoryLines_select {α : Type} [NatCast α] (topic : String) (timestamp : Nat)
    (content : JsVal α) :
    match selectCategory cascade topic with
    | some c => ∃ tailored,
        categoryLines topic timestamp content =
          headerLines c.title topic timestamp content ++ tailored
    | none => categoryLines topic timestamp content = [] := by
  unfold selectCategory cascade categoryLines
  by_cases h1 : startsWith topic config.topics.orders.base = true
  · simp only [List.find?, Category.base, h1, if_true]
    exact ⟨_, rfl⟩
  · by_cases h2 : startsWith topic config.topics.inventory.base = true
    · simp only [List.find?, Category.base, h1, h2, if_true, if_false]
      exact ⟨_, rfl⟩
    · by_cases h3 : startsWith topic config.topics.payments.base = true
      · simp only [List.find?, Category.base, h1, h2, h3, if_true, if_false]
        exact ⟨_, rfl⟩
      · by_cases h4 : startsWith topic config.topics.customers.base = true
        · simp only [List.find?, Category.base, h1, h2, h3, h4, if_true, if_false]
          exact ⟨_, rfl⟩
        · simp [List.find?, Category.base, h1, h2, h3, h4]

/-- No base path is a prefix of another one. -/
theorem base_not_startsWith (c d : Category) (h : c ≠ d) :
    startsWith d.base c.base = false := by
  cases c <;> cases d <;> first | exact absurd rfl h | decide

/-- At most one base path is a prefix of a topic. -/
theorem base_unique (topic : String) (c d : Category)
    (hc : startsWith topic c.base = true) (hd : startsWith topic d.base = true) : c = d := by
  by_contra hne
  have hc1 : c.base.data <+: topic.data := List.isPrefixOf_iff_prefix.mp hc
  have hd1 : d.base.data <+: topic.data := List.isPrefixOf_iff_prefix.mp hd
  rcases le_total c.base.data.length d.base.data.length with hle | hle
  · have hp := List.prefix_of_prefix_length_le hc1 hd1 hle
    have hs : startsWith d.base c.base = true := List.isPrefixOf_iff_prefix.mpr hp
    rw [base_not_startsWith c d hne] at hs
    exact absurd hs (by simp)
  · have hp := List.prefix_of_prefix_length_le hd1 hc1 hle
    have hs : startsWith c.base d.base = true := List.isPrefixOf_iff_prefix.mpr hp
    rw [base_not_startsWith d c (fun h => hne h.symm)] at hs
    exact absurd hs (by simp)

/-- A cascade that tests every base path selects `c` exactly when the base path
of `c` is a prefix of the topic. -/
theorem selectCategory_eq_some_iff (tests : List Category) (hall : ∀ c, c ∈ tests)
    (topic : String) (c : Category) :
    selectCategory tests topic = some c ↔ startsWith topic c.base = true := by
  unfold selectCategory
  constructor
  · intro h
    simpa using List.find?_some h
  · intro hc
    cases hfind : tests.find? (fun c => startsWith topic c.base) with
    | none =>
      rw [List.find?_eq_none] at hfind
      exact absurd hc (by simpa using hfind c (hall c))
    | some d =>
      have hd : startsWith topic d.base = true := by simpa using List.find?_some hfind
      rw [base_unique topic c d hc hd]

/-- C11 fails as stated: `ecommerce/shipping/created` lies under `ecommerce/`
(the subscription `ecommerce/>` delivers it) and starts with none of the four
base paths. For a message on it whose body is the JSON text of an event object
(`jsonParse` returns that object for this text), `processMessage` selects no
category, writes no "uncategorized" report and shows nothing of the message:
the closing separator is its only line. -/
theorem C11_unmatched_topic_only_separator :
    selectCategory cascade "ecommerce/shipping/created" = none ∧
    (processMessage
      (fun text =>
        if text = "\x7b\"eventType\":\"ShipmentCreated\"\x7d" then
          (.ok (.obj [("eventType", .str "ShipmentCreated")]) : Except String (JsVal ℚ))
        else .error "Unexpected token")
      { destination := "ecommerce/shipping/created"
        binaryAttachment := some "\x7b\"eventType\":\"ShipmentCreated\"\x7d"
        userPropertyMap := .ok none } 0).lines =
      [[.text "-----------------------------------"]] ∧
    (processMessage
      (fun text =>
        if text = "\x7b\"eventType\":\"ShipmentCreated\"\x7d" then
          (.ok (.obj [("eventType", .str "ShipmentCreated")]) : Except String (JsVal ℚ))
        else .error "Unexpected token")
      { destination := "ecommerce/shipping/created"
        binaryAttachment := some "\x7b\"eventType\":\"ShipmentCreated\"\x7d"
        userPropertyMap := .ok none } 0).thrown = none := by
  refine ⟨by decide, ?_, ?_⟩ <;> simp [processMessage, categoryLines, startsWith, runLogs,
    logText, config.topics.orders.base, config.topics.inventory.base,
    config.topics.payments.base, config.topics.customers.base]

/-- C11 as amended: for every topic, a cascade testing the four base paths in
any order selects the same category as the one in the code; that category is
selected exactly when its base path is a prefix of the topic, so it is the
longest base path that is a prefix (no other base path is one), and
`processMessage` writes the header of that category. A topic of which no base
path is a prefix selects no category, for every message and every behaviour of
the parser: no category header, no "uncategorized" report and no field of the
message is written and no error is raised; the lines are the parse-error
report when the body does not parse, then the user-property note when reading
the user properties throws, then the closing separator. When the body parses
and the user properties are readable the separator is the only line. -/
theorem C11_category_is_the_matching_base {α : Type} [NatCast α] (topic : String)
    (tests : List Category) (hperm : tests.Perm cascade) :
    selectCategory tests topic = selectCategory cascade topic ∧
    (∀ c, selectCategory cascade topic = some c ↔ startsWith topic c.base = true) ∧
    (∀ c d, selectCategory cascade topic = some c → startsWith topic d.base = true →
      d.base.length ≤ c.base.length ∧ d = c) ∧
    (∀ (c : Category) (timestamp : Nat) (content : JsVal α),
      selectCategory cascade topic = some c →
      ∃ tailored, categoryLines topic timestamp content =
        headerLines c.title topic timestamp content ++ tailored) ∧
    (selectCategory cascade topic = none →
      ∀ (jsonParse : String → Except String (JsVal α)) (binaryAttachment : Option String)
        (userPropertyMap : Except String (Option (List (String × String))))
        (timestamp : Nat),
        (processMessage jsonParse
          { destination := topic, binaryAttachment := binaryAttachment,
            userPropertyMap := userPropertyMap } timestamp).lines =
          (match jsonParse (binaryAttachment.getD "null") with
            | .ok _ => []
            | .error e =>
              [[.text ("Error parsing message on topic " ++ topic ++ ": " ++ e)]]) ++
          (match userPropertyMap with
            | .ok _ => []
            | .error e => [[.text ("Note: No user properties available: " ++ e)]]) ++
          [[.text "-----------------------------------"]] ∧
        (processMessage jsonParse
          { destination := topic, binaryAttachment := binaryAttachment,
            userPropertyMap := userPropertyMap } timestamp).thrown = none) ∧
    (selectCategory cascade topic = none →
      ∀ (jsonParse : String → Except String (JsVal α)) (body : String) (content : JsVal α)
        (properties : Option (List (String × String))) (timestamp : Nat),
        jsonParse body = .ok content →
        (processMessage jsonParse
          { destination := topic, binaryAttachment := some body,
            userPropertyMap := .ok properties } timestamp).lines =
          [[.text "-----------------------------------"]] ∧
        (processMessage jsonParse
          { destination := topic, binaryAttachment := some body,
            userPropertyMap := .ok properties } timestamp).thrown = none) := by
  have hcascade : ∀ c, c ∈ cascade := by intro c; cases c <;> simp [cascade]
  have htests : ∀ c, c ∈ tests := fun c => hperm.mem_iff.mpr (hcascade c)
  have hiff := selectCategory_eq_some_iff cascade hcascade topic
  refine ⟨?_, hiff, ?_, ?_, ?_, ?_⟩
  · cases hsel : selectCategory cascade topic with
    | some c =>
      exact (selectCategory_eq_some_iff tests htests topic c).mpr ((hiff c).mp hsel)
    | none =>
      cases hsel2 : selectCategory tests topic with
      | none => rfl
      | some d =>
        have hd := (selectCategory_eq_some_iff tests htests topic d).mp hsel2
        rw [(hiff d).mpr hd] at hsel
        exact absurd hsel (by simp)
  · intro c d hc hd
    have hcd : d = c := base_unique topic d c hd ((hiff c).mp hc)
    subst hcd
    exact ⟨le_refl _, rfl⟩
  · intro c timestamp content hc
    have h := categoryLines_select topic timestamp content
    rw [hc] at h
    exact h
  · intro hnone jsonParse binaryAttachment userPropertyMap timestamp
    have h : ∀ ts (v : JsVal α), categoryLines topic ts v = [] := by
      intro ts v
      have h := categoryLines_select topic ts v
      rw [hnone] at h
      exact h
    cases hp : jsonParse (binaryAttachment.getD "null") <;> cases userPropertyMap <;>
      simp [processMessage, hp, h, runLogs, logText]
  · intro hnone jsonParse body content properties timestamp hparse
    have h : ∀ ts (v : JsVal α), categoryLines topic ts v = [] := by
      intro ts v
      have h := categoryLines_select topic ts v
      rw [hnone] at h
      exact h
    simp [processMessage, hparse, h, runLogs, logText]

/-- Witness of C11 as amended: the reversed cascade on `ecommerce/orders/created`. -/
theorem C11_category_is_the_matching_base_witness :
    [Category.customers, .payments, .inventory, .orders].Perm cascade ∧
    selectCategory [Category.customers, .payments, .inventory, .orders]
      "ecommerce/orders/created" = some .orders ∧
    selectCategory cascade "ecommerce/orders/created" = some .orders := by
  have hperm : [Category.customers, .payments, .inventory, .orders].Perm cascade := by decide
  have h := (@C11_category_is_the_matching_base ℚ _ "ecommerce/orders/created"
    [Category.customers, .payments, .inventory, .orders] hperm).1
  have h2 : selectCategory cascade "ecommerce/orders/created" = some .orders := by decide
  exact ⟨hperm, h.trans h2, h2⟩

/-! ## Random integers -/

/-- Rounding to the nearest integer moves a value up by at most one half. -/
theorem roundHalfEven_le (t : ℚ) : (roundHalfEven t : ℚ) ≤ t + 1 / 2 := by
  have hf := Int.floor_le t
  have hl := Int.lt_floor_add_one t
  unfold roundHalfEven
  split_ifs <;> push_cast <;> linarith

/-- Rounding to the nearest integer moves a value down by at most one half. -/
theorem le_roundHalfEven (t : ℚ) : t - 1 / 2 ≤ (roundHalfEven t : ℚ) := by
  have hf := Int.floor_le t
  have hl := Int.lt_floor_add_one t
  unfold roundHalfEven
  split_ifs <;> push_cast <;> linarith

/-- An integer is its own rounding. -/
theorem roundHalfEven_intCast (k : ℤ) : roundHalfEven (k : ℚ) = k := by
  simp [roundHalfEven]

/-- The rounding of a non-negative value is non-negative. -/
theorem roundHalfEven_nonneg (t : ℚ) (ht : 0 ≤ t) : 0 ≤ roundHalfEven t := by
  have hf : 0 ≤ Int.floor t := Int.floor_nonneg.mpr ht
  unfold roundHalfEven
  split_ifs <;> omega

/-- The spacing of the doubles is positive. -/
theorem quantum_pos (a : ℚ) : 0 < quantum a := by
  unfold quantum
  positivity

/-- The spacing at `a` is at most `a * 2^-52`, or the subnormal spacing. -/
theorem quantum_le (a : ℚ) (ha : 0 < a) :
    quantum a ≤ a * (2 : ℚ) ^ (-52 : ℤ) + (2 : ℚ) ^ (-1074 : ℤ) := by
  have hlog : ((2 : ℕ) : ℚ) ^ Int.log 2 a ≤ a := Int.zpow_log_le_self (by norm_num) ha
  have h2 : ((2 : ℕ) : ℚ) = 2 := by norm_num
  rw [h2] at hlog
  have hp1 : (0 : ℚ) < (2 : ℚ) ^ (-52 : ℤ) := by positivity
  have hp2 : (0 : ℚ) < (2 : ℚ) ^ (-1074 : ℤ) := by positivity
  unfold quantum
  rcases le_total (Int.log 2 a) (-1022) with h | h
  · rw [max_eq_right h]
    have : (-1022 - 52 : ℤ) = -1074 := by norm_num
    rw [this]
    nlinarith
  · rw [max_eq_left h, sub_eq_add_neg, zpow_add₀ (by norm_num : (2 : ℚ) ≠ 0)]
    nlinarith

/-- Rounding moves a value up by at most half a spacing. -/
theorem roundMagnitude_le (a : ℚ) : roundMagnitude a ≤ a + quantum a / 2 := by
  have hq := quantum_pos a
  unfold roundMagnitude
  have h := roundHalfEven_le (a / quantum a)
  calc (roundHalfEven (a / quantum a) : ℚ) * quantum a
      ≤ (a / quantum a + 1 / 2) * quantum a := mul_le_mul_of_nonneg_right h hq.le
    _ = a + quantum a / 2 := by field_simp; ring

/-- Rounding moves a value down by at most half a spacing. -/
theorem le_roundMagnitude (a : ℚ) : a - quantum a / 2 ≤ roundMagnitude a := by
  have hq := quantum_pos a
  unfold roundMagnitude
  have h := le_roundHalfEven (a / quantum a)
  calc a - quantum a / 2 = (a / quantum a - 1 / 2) * quantum a := by field_simp; ring
    _ ≤ (roundHalfEven (a / quantum a) : ℚ) * quantum a := mul_le_mul_of_nonneg_right h hq.le

/-- The rounding of a non-negative value is non-negative. -/
theorem roundMagnitude_nonneg (a : ℚ) (ha : 0 ≤ a) : 0 ≤ roundMagnitude a := by
  unfold roundMagnitude
  have hq := quantum_pos a
  have : 0 ≤ roundHalfEven (a / quantum a) := roundHalfEven_nonneg _ (div_nonneg ha hq.le)
  have : (0 : ℚ) ≤ (roundHalfEven (a / quantum a) : ℚ) := by exact_mod_cast this
  positivity

/-- Zero is its own rounding. -/
theorem roundMagnitude_zero : roundMagnitude 0 = 0 := by
  simp [roundMagnitude, roundHalfEven]

/-- The relative error bound of rounding, upper side. -/
theorem toDouble_le (x : ℚ) (hx : 0 ≤ x) :
    toDouble x ≤ x * (1 + (2 : ℚ) ^ (-53 : ℤ)) + (2 : ℚ) ^ (-1075 : ℤ) := by
  have hp1 : (0 : ℚ) < (2 : ℚ) ^ (-53 : ℤ) := by positivity
  have hp2 : (0 : ℚ) < (2 : ℚ) ^ (-1075 : ℤ) := by positivity
  unfold toDouble
  rw [if_pos hx]
  rcases hx.eq_or_lt with h0 | hpos
  · rw [← h0, roundMagnitude_zero]
    nlinarith
  · have h1 := roundMagnitude_le x
    have h2 := quantum_le x hpos
    have e1 : (2 : ℚ) ^ (-52 : ℤ) = 2 * (2 : ℚ) ^ (-53 : ℤ) := by
      rw [show (-52 : ℤ) = 1 + (-53) by norm_num, zpow_add₀ (by norm_num : (2 : ℚ) ≠ 0)]
      norm_num
    have e2 : (2 : ℚ) ^ (-1074 : ℤ) = 2 * (2 : ℚ) ^ (-1075 : ℤ) := by
      rw [show (-1074 : ℤ) = 1 + (-1075) by norm_num, zpow_add₀ (by norm_num : (2 : ℚ) ≠ 0)]
      norm_num
    rw [e1, e2] at h2
    nlinarith

/-- The relative error bound of rounding, lower side. -/
theorem le_toDouble (x : ℚ) (hx : 0 ≤ x) :
    x * (1 - (2 : ℚ) ^ (-53 : ℤ)) - (2 : ℚ) ^ (-1075 : ℤ) ≤ toDouble x := by
  have hp1 : (0 : ℚ) < (2 : ℚ) ^ (-53 : ℤ) := by positivity
  have hp2 : (0 : ℚ) < (2 : ℚ) ^ (-1075 : ℤ) := by positivity
  unfold toDouble
  rw [if_pos hx]
  rcases hx.eq_or_lt with h0 | hpos
  · rw [← h0, roundMagnitude_zero]
    nlinarith
  · have h1 := le_roundMagnitude x
    have h2 := quantum_le x hpos
    have e1 : (2 : ℚ) ^ (-52 : ℤ) = 2 * (2 : ℚ) ^ (-53 : ℤ) := by
      rw [show (-52 : ℤ) = 1 + (-53) by norm_num, zpow_add₀ (by norm_num : (2 : ℚ) ≠ 0)]
      norm_num
    have e2 : (2 : ℚ) ^ (-1074 : ℤ) = 2 * (2 : ℚ) ^ (-1075 : ℤ) := by
      rw [show (-1074 : ℤ) = 1 + (-1075) by norm_num, zpow_add₀ (by norm_num : (2 : ℚ) ≠ 0)]
      norm_num
    rw [e1, e2] at h2
    nlinarith

/-- The rounding of a non-negative value is non-negative. -/
theorem toDouble_nonneg (x : ℚ) (hx : 0 ≤ x) : 0 ≤ toDouble x := by
  unfold toDouble
  rw [if_pos hx]
  exact roundMagnitude_nonneg x hx

/-- The binary exponent of a value of the binade `[2^e, 2^(e+1))` is `e`. -/
theorem log2_eq (a : ℚ) (e : ℤ) (ha : 0 < a) (h1 : (2 : ℚ) ^ e ≤ a) (h2 : a < (2 : ℚ) ^ (e + 1)) :
    Int.log 2 a = e := by
  have hc : ((2 : ℕ) : ℚ) = 2 := by norm_num
  have hle : e ≤ Int.log 2 a := by
    rw [← Int.zpow_le_iff_le_log (by norm_num) ha, hc]
    exact h1
  have hlt : Int.log 2 a < e + 1 := by
    rw [← Int.lt_zpow_iff_log_lt (by norm_num) ha, hc]
    exact h2
  omega

/-- A positive value that is a whole number of quanta is its own rounding. -/
theorem roundMagnitude_of_multiple (a : ℚ) (k : ℤ) (h : a / quantum a = (k : ℚ)) :
    roundMagnitude a = a := by
  have hq := quantum_pos a
  unfold roundMagnitude
  rw [h, roundHalfEven_intCast, ← h]
  field_simp

/-- A positive integer below `2^53` is its own rounding. -/
theorem roundMagnitude_intCast (k : ℤ) (h0 : 0 < k) (hk : k < 2 ^ 53) :
    roundMagnitude (k : ℚ) = k := by
  have hkq : (0 : ℚ) < (k : ℚ) := by exact_mod_cast h0
  have hc : ((2 : ℕ) : ℚ) = 2 := by norm_num
  have he0 : 0 ≤ Int.log 2 (k : ℚ) := by
    rw [← Int.zpow_le_iff_le_log (by norm_num) hkq, hc]
    have : (1 : ℚ) ≤ (k : ℚ) := by exact_mod_cast h0
    simpa using this
  have he52 : Int.log 2 (k : ℚ) < 53 := by
    rw [← Int.lt_zpow_iff_log_lt (by norm_num) hkq, hc]
    have h53 : (2 : ℚ) ^ (53 : ℤ) = (2 : ℚ) ^ (53 : ℕ) := by norm_num
    rw [h53]
    exact_mod_cast hk
  obtain ⟨m, hm⟩ : ∃ m : ℕ, (m : ℤ) = 52 - Int.log 2 (k : ℚ) :=
    ⟨(52 - Int.log 2 (k : ℚ)).toNat, by omega⟩
  have hq : quantum (k : ℚ) = ((2 : ℚ) ^ m)⁻¹ := by
    unfold quantum
    rw [max_eq_left (by omega), show Int.log 2 (k : ℚ) - 52 = -(m : ℤ) by omega, zpow_neg,
      zpow_natCast]
  apply roundMagnitude_of_multiple _ (k * 2 ^ m)
  rw [hq]
  push_cast
  field_simp

/-- An integer of magnitude below `2^53` is a double. -/
theorem toDouble_intCast (k : ℤ) (hlo : -(2 ^ 53) < k) (hhi : k < 2 ^ 53) :
    toDouble (k : ℚ) = k := by
  unfold toDouble
  rcases lt_trichotomy k 0 with h | h | h
  · have hn : ¬ (0 : ℚ) ≤ (k : ℚ) := by
      have : (k : ℚ) < 0 := by exact_mod_cast h
      linarith
    rw [if_neg hn]
    have := roundMagnitude_intCast (-k) (by omega) (by omega)
    push_cast at this
    rw [this]
    ring
  · subst h
    simp [roundMagnitude_zero]
  · have hp : (0 : ℚ) ≤ (k : ℚ) := by exact_mod_cast h.le
    rw [if_pos hp]
    exact roundMagnitude_intCast k h hhi

/-- A double below 1 is at most `1 - 2^-53`. -/
theorem double_lt_one (r : ℚ) (h0 : 0 ≤ r) (h1 : r < 1) (hd : toDouble r = r) :
    r ≤ 1 - (2 : ℚ) ^ (-53 : ℤ) := by
  have e53 : (2 : ℚ) ^ (-53 : ℤ) = 1 / 9007199254740992 := by norm_num [zpow_neg]
  rcases lt_or_le r (1 / 2) with hlt | hge
  · rw [e53]; linarith
  · have hpos : (0 : ℚ) < r := by linarith
    have hlog : Int.log 2 r = -1 :=
      log2_eq r (-1) hpos (by norm_num [zpow_neg]; linarith) (by norm_num; exact h1)
    have hq : quantum r = (2 : ℚ) ^ (-53 : ℤ) := by
      unfold quantum
      rw [hlog]
      norm_num
    unfold toDouble at hd
    rw [if_pos h0] at hd
    unfold roundMagnitude at hd
    rw [hq, e53] at hd
    rw [e53]
    generalize roundHalfEven (r / (1 / 9007199254740992)) = K at hd
    have hK : (K : ℚ) < 9007199254740992 := by linarith
    have hK2 : K ≤ 9007199254740991 := by
      have : K < 9007199254740992 := by exact_mod_cast hK
      omega
    have hK3 : (K : ℚ) ≤ 9007199254740991 := by exact_mod_cast hK2
    linarith

/-- The rounded product of a double below 1 with `n ≥ 1` stays below `n`. -/
theorem toDouble_mul_lt (r n : ℚ) (h0 : 0 ≤ r) (hr : r ≤ 1 - (2 : ℚ) ^ (-53 : ℤ))
    (hn : 1 ≤ n) : toDouble (r * n) < n := by
  have hx : 0 ≤ r * n := mul_nonneg h0 (by linarith)
  have h := toDouble_le (r * n) hx
  have e53 : (2 : ℚ) ^ (-53 : ℤ) = 1 / 9007199254740992 := by norm_num [zpow_neg]
  have hsmall : (2 : ℚ) ^ (-1075 : ℤ) < (2 : ℚ) ^ (-106 : ℤ) :=
    zpow_lt_zpow_right₀ (by norm_num) (by norm_num)
  have e106 : (2 : ℚ) ^ (-106 : ℤ) = (1 / 9007199254740992) * (1 / 9007199254740992) := by
    norm_num [zpow_neg]
  rw [e53] at h hr
  rw [e106] at hsmall
  have hmul : r * n ≤ (1 - 1 / 9007199254740992) * n :=
    mul_le_mul_of_nonneg_right hr (by linarith)
  nlinarith

/-- The integers below `2^53` are far inside the range of the doubles. -/
theorem two_pow_53_lt : (2 : ℚ) ^ 53 < (2 : ℚ) ^ 1024 :=
  pow_lt_pow_right₀ (by norm_num) (by norm_num)

/-- A non-negative exact result whose rounding is below `2^53` is delivered as that rounding. -/
theorem ofExact_of_bounds (x : ℚ) (h0 : 0 ≤ x) (h : toDouble x < (2 : ℚ) ^ 53) :
    JsNumber.ofExact x = .finite (toDouble x) := by
  unfold JsNumber.ofExact
  have hn := toDouble_nonneg x h0
  have h2 := two_pow_53_lt
  have hp : (0 : ℚ) < (2 : ℚ) ^ 1024 := by positivity
  rw [if_pos ⟨by linarith, by linarith⟩]

/-- An integer result of magnitude below `2^53` is delivered exactly. -/
theorem ofExact_intCast (k : ℤ) (hlo : -(2 ^ 53) < k) (hhi : k < 2 ^ 53) :
    JsNumber.ofExact (k : ℚ) = .finite (k : ℚ) := by
  unfold JsNumber.ofExact
  rw [toDouble_intCast k hlo hhi]
  have h2 := two_pow_53_lt
  have h3 : (k : ℚ) < (2 : ℚ) ^ 53 := by exact_mod_cast hhi
  have h4 : -((2 : ℚ) ^ 53) < (k : ℚ) := by exact_mod_cast hlo
  rw [if_pos ⟨by linarith, by linarith⟩]

/-- A double is its own rounding. -/
theorem isDouble_toDouble (x : ℚ) (h : isDouble x) : toDouble x = x := by
  unfold isDouble JsNumber.ofExact at h
  split_ifs at h
  · exact JsNumber.finite.inj h

/-- On integer bounds between `-2^51` and `2^51` and a draw in `[0, 1)` every
operation of `getRandomInt` except the product is exact. -/
theorem getRandomInt_number_eq (r : ℚ) (min max : Int) (h0 : 0 ≤ r) (h1 : r < 1)
    (hlo : -(2 ^ 51) ≤ min) (hmm : min ≤ max) (hhi : max ≤ 2 ^ 51) :
    JsNumber.getRandomInt (.finite r) (.finite min) (.finite max) =
      .finite ((Int.floor (toDouble (r * ((max - min + 1 : Int) : ℚ))) + min : Int) : ℚ) ∧
    0 ≤ Int.floor (toDouble (r * ((max - min + 1 : Int) : ℚ))) ∧
    Int.floor (toDouble (r * ((max - min + 1 : Int) : ℚ))) ≤ max - min + 1 := by
  have hn1 : (1 : ℚ) ≤ ((max - min + 1 : Int) : ℚ) := by
    have : (1 : Int) ≤ max - min + 1 := by omega
    exact_mod_cast this
  have hn2 : ((max - min + 1 : Int) : ℚ) ≤ 4503599627370497 := by
    have : max - min + 1 ≤ 4503599627370497 := by omega
    exact_mod_cast this
  have hx : 0 ≤ r * ((max - min + 1 : Int) : ℚ) := mul_nonneg h0 (by linarith)
  have hle := toDouble_le _ hx
  have hnn := toDouble_nonneg _ hx
  have e53 : (2 : ℚ) ^ (-53 : ℤ) = 1 / 9007199254740992 := by norm_num [zpow_neg]
  have hsmall : (2 : ℚ) ^ (-1075 : ℤ) < (2 : ℚ) ^ (-53 : ℤ) :=
    zpow_lt_zpow_right₀ (by norm_num) (by norm_num)
  rw [e53] at hle hsmall
  have hxn : r * ((max - min + 1 : Int) : ℚ) ≤ ((max - min + 1 : Int) : ℚ) := by nlinarith
  have hlt : toDouble (r * ((max - min + 1 : Int) : ℚ)) < ((max - min + 1 : Int) : ℚ) + 1 := by
    nlinarith
  have hf0 : 0 ≤ Int.floor (toDouble (r * ((max - min + 1 : Int) : ℚ))) :=
    Int.floor_nonneg.mpr hnn
  have hf1 : Int.floor (toDouble (r * ((max - min + 1 : Int) : ℚ))) ≤ max - min + 1 := by
    have : Int.floor (toDouble (r * ((max - min + 1 : Int) : ℚ))) < max - min + 1 + 1 := by
      rw [Int.floor_lt]
      push_cast
      push_cast at hlt
      linarith
    omega
  refine ⟨?_, hf0, hf1⟩
  have hsub : (JsNumber.finite (max : ℚ)).sub (.finite (min : ℚ)) =
      .finite ((max - min : Int) : ℚ) := by
    have : (max : ℚ) + -(min : ℚ) = ((max - min : Int) : ℚ) := by push_cast; ring
    simp only [JsNumber.sub, JsNumber.neg, JsNumber.add, this]
    exact ofExact_intCast _ (by omega) (by omega)
  have hadd : (JsNumber.finite ((max - min : Int) : ℚ)).add (.finite 1) =
      .finite ((max - min + 1 : Int) : ℚ) := by
    have : ((max - min : Int) : ℚ) + 1 = ((max - min + 1 : Int) : ℚ) := by push_cast; ring
    simp only [JsNumber.add, this]
    exact ofExact_intCast _ (by omega) (by omega)
  have hmul : (JsNumber.finite r).mul (.finite ((max - min + 1 : Int) : ℚ)) =
      .finite (toDouble (r * ((max - min + 1 : Int) : ℚ))) := by
    simp only [JsNumber.mul]
    apply ofExact_of_bounds _ hx
    have : (2 : ℚ) ^ 53 = 9007199254740992 := by norm_num
    rw [this]
    linarith
  have hlast : (JsNumber.finite
      ((Int.floor (toDouble (r * ((max - min + 1 : Int) : ℚ))) : Int) : ℚ)).add
        (.finite (min : ℚ)) =
      .finite ((Int.floor (toDouble (r * ((max - min + 1 : Int) : ℚ))) + min : Int) : ℚ) := by
    have : ((Int.floor (toDouble (r * ((max - min + 1 : Int) : ℚ))) : Int) : ℚ) + (min : ℚ) =
        ((Int.floor (toDouble (r * ((max - min + 1 : Int) : ℚ))) + min : Int) : ℚ) := by
      push_cast; ring
    simp only [JsNumber.add, this]
    exact ofExact_intCast _ (by omega) (by omega)
  unfold JsNumber.getRandomInt
  rw [hsub, hadd, hmul]
  simp only [JsNumber.floor]
  exact hlast

/-- On integer bounds between `-2^51` and `2^51` and a draw in `[0, 1)`,
`getRandomInt` is the floor of the rounded product, plus `min`. -/
theorem getRandomInt_eq (r : ℚ) (min max : Int) (h0 : 0 ≤ r) (h1 : r < 1)
    (hlo : -(2 ^ 51) ≤ min) (hmm : min ≤ max) (hhi : max ≤ 2 ^ 51) :
    getRandomInt r min max =
      Int.floor (toDouble (r * ((max - min + 1 : Int) : ℚ))) + min := by
  unfold getRandomInt
  rw [(getRandomInt_number_eq r min max h0 h1 hlo hmm hhi).1]
  simp [JsNumber.toInt]

/-- For a double draw in `[0, 1)` and integer bounds `min ≤ max` between `-2^51`
and `2^51`, `getRandomInt` lands in `min .. max`. -/
theorem getRandomInt_mem (r : ℚ) (min max : Int) (hmm : min ≤ max) (h0 : 0 ≤ r)
    (h1 : r < 1) (hd : isDouble r) (hlo : -(2 ^ 51) ≤ min) (hhi : max ≤ 2 ^ 51) :
    min ≤ getRandomInt r min max ∧ getRandomInt r min max ≤ max := by
  rw [getRandomInt_eq r min max h0 h1 hlo hmm hhi]
  obtain ⟨-, hf0, -⟩ := getRandomInt_number_eq r min max h0 h1 hlo hmm hhi
  have hn1 : (1 : ℚ) ≤ ((max - min + 1 : Int) : ℚ) := by
    have : (1 : Int) ≤ max - min + 1 := by omega
    exact_mod_cast this
  have hlt := toDouble_mul_lt r _ h0 (double_lt_one r h0 h1 (isDouble_toDouble r hd)) hn1
  have hf : Int.floor (toDouble (r * ((max - min + 1 : Int) : ℚ))) < max - min + 1 := by
    rw [Int.floor_lt]
    exact hlt
  constructor <;> omega

/-- A value less than one half away from an integer rounds to it. -/
theorem roundHalfEven_eq_of (t : ℚ) (k : ℤ) (h1 : (k : ℚ) - 1 / 2 < t) (h2 : t < (k : ℚ) + 1 / 2) :
    roundHalfEven t = k := by
  have ha := roundHalfEven_le t
  have hb := le_roundHalfEven t
  have hlt : (roundHalfEven t : ℚ) < ((k + 1 : ℤ) : ℚ) := by push_cast; linarith
  have hgt : ((k - 1 : ℤ) : ℚ) < (roundHalfEven t : ℚ) := by push_cast; linarith
  have hlt2 : roundHalfEven t < k + 1 := by exact_mod_cast hlt
  have hgt2 : k - 1 < roundHalfEven t := by exact_mod_cast hgt
  omega

/-- Evaluation of the rounding of a positive normal value: in the binade
`[2^e, 2^(e+1))` the result is the multiple `k` of `2^(e-52)` nearest to it. -/
theorem roundMagnitude_eq_of (x : ℚ) (e k : ℤ) (he : -1022 ≤ e)
    (h1 : (2 : ℚ) ^ e ≤ x) (h2 : x < (2 : ℚ) ^ (e + 1))
    (hk1 : (k : ℚ) - 1 / 2 < x / (2 : ℚ) ^ (e - 52))
    (hk2 : x / (2 : ℚ) ^ (e - 52) < (k : ℚ) + 1 / 2) :
    roundMagnitude x = (k : ℚ) * (2 : ℚ) ^ (e - 52) := by
  have hx : 0 < x := lt_of_lt_of_le (by positivity) h1
  have hlog := log2_eq x e hx h1 h2
  have hq : quantum x = (2 : ℚ) ^ (e - 52) := by
    unfold quantum
    rw [hlog, max_eq_left he]
  unfold roundMagnitude
  rw [hq, roundHalfEven_eq_of _ k hk1 hk2]

/-- Evaluation of the rounding of a positive normal value. -/
theorem toDouble_eq_of (x : ℚ) (e k : ℤ) (he : -1022 ≤ e)
    (h1 : (2 : ℚ) ^ e ≤ x) (h2 : x < (2 : ℚ) ^ (e + 1))
    (hk1 : (k : ℚ) - 1 / 2 < x / (2 : ℚ) ^ (e - 52))
    (hk2 : x / (2 : ℚ) ^ (e - 52) < (k : ℚ) + 1 / 2) :
    toDouble x = (k : ℚ) * (2 : ℚ) ^ (e - 52) := by
  have hx : 0 < x := lt_of_lt_of_le (by positivity) h1
  unfold toDouble
  rw [if_pos hx.le]
  exact roundMagnitude_eq_of x e k he h1 h2 hk1 hk2

/-- The doubles of `[1/2, 1)` are the multiples `K / 2^53` with
`2^52 ≤ K < 2^53`. -/
theorem isDouble_of_mantissa (r : ℚ) (K : ℤ) (hr : r * 9007199254740992 = (K : ℚ))
    (h1 : 4503599627370496 ≤ K) (h2 : K < 9007199254740992) : isDouble r := by
  have hK1 : (4503599627370496 : ℚ) ≤ (K : ℚ) := by exact_mod_cast h1
  have hK2 : (K : ℚ) < 9007199254740992 := by exact_mod_cast h2
  have e1 : (2 : ℚ) ^ (-1 : ℤ) = 1 / 2 := by norm_num [zpow_neg]
  have e2 : (2 : ℚ) ^ (-1 + 1 : ℤ) = 1 := by norm_num
  have e3 : (2 : ℚ) ^ (-1 - 52 : ℤ) = 1 / 9007199254740992 := by norm_num [zpow_neg]
  have hd : toDouble r = r := by
    rw [toDouble_eq_of r (-1) K (by norm_num)
      (by rw [e1]; linarith) (by rw [e2]; linarith)
      (by rw [e3]; field_simp; linarith) (by rw [e3]; field_simp; linarith), e3, ← hr]
    ring
  have hp : (2 : ℚ) ^ 53 < (2 : ℚ) ^ 1024 := two_pow_53_lt
  have e4 : (2 : ℚ) ^ 53 = 9007199254740992 := by norm_num
  rw [e4] at hp
  unfold isDouble JsNumber.ofExact
  rw [hd, if_pos ⟨by linarith, by linarith⟩]

/-- The draw 1/2 is a double. -/
theorem isDouble_half : isDouble (1 / 2) :=
  isDouble_of_mantissa (1 / 2) 4503599627370496 (by norm_num) (by norm_num) (by norm_num)

/-- Evaluation of `floor` of a rounded product away from the integers. -/
theorem floor_toDouble (x : ℚ) (k : ℤ) (hx : 0 ≤ x)
    (hlo : (k : ℚ) + (x + 1) / 2 ^ 53 ≤ x) (hhi : x + (x + 1) / 2 ^ 53 < (k : ℚ) + 1) :
    Int.floor (toDouble x) = k := by
  have hle := toDouble_le x hx
  have hge := le_toDouble x hx
  have e53 : (2 : ℚ) ^ (-53 : ℤ) = 1 / 2 ^ 53 := by norm_num [zpow_neg]
  have hsmall : (2 : ℚ) ^ (-1075 : ℤ) < (2 : ℚ) ^ (-53 : ℤ) :=
    zpow_lt_zpow_right₀ (by norm_num) (by norm_num)
  rw [e53] at hle hge hsmall
  rw [Int.floor_eq_iff]
  constructor
  · have : (x + 1) / 2 ^ 53 = x * (1 / 2 ^ 53) + 1 / 2 ^ 53 := by ring
    linarith
  · have : (x + 1) / 2 ^ 53 = x * (1 / 2 ^ 53) + 1 / 2 ^ 53 := by ring
    linarith

/-- The double nearest to 0.6, `5404319552844595 / 2^53`. -/
theorem isDouble_point_six : isDouble (5404319552844595 / 9007199254740992) :=
  isDouble_of_mantissa _ 5404319552844595 (by norm_num) (by norm_num) (by norm_num)

/-- At the draw 0.6 the rounded products are 3 and 480, where the exact products
are just below: `getRandomInt(0, 4)` is 3 and `getRandomInt(200, 999)` is 680. -/
theorem getRandomInt_point_six :
    getRandomInt (5404319552844595 / 9007199254740992) 0 4 = 3 ∧
    getRandomInt (5404319552844595 / 9007199254740992) 200 999 = 680 := by
  constructor
  · rw [getRandomInt_eq _ _ _ (by norm_num) (by norm_num) (by norm_num) (by norm_num)
      (by norm_num)]
    have hx : toDouble (5404319552844595 / 9007199254740992 * ((4 - 0 + 1 : ℤ) : ℚ)) = 3 := by
      rw [toDouble_eq_of _ 1 6755399441055744 (by norm_num) (by norm_num) (by norm_num)
        (by norm_num [zpow_neg]) (by norm_num [zpow_neg])]
      norm_num [zpow_neg]
    rw [hx]
    norm_num
  · rw [getRandomInt_eq _ _ _ (by norm_num) (by norm_num) (by norm_num) (by norm_num)
      (by norm_num)]
    have hx : toDouble (5404319552844595 / 9007199254740992 * ((999 - 200 + 1 : ℤ) : ℚ)) =
        480 := by
      rw [toDouble_eq_of _ 8 8444249301319680 (by norm_num) (by norm_num) (by norm_num)
        (by norm_num [zpow_neg]) (by norm_num [zpow_neg])]
      norm_num [zpow_neg]
    rw [hx]
    norm_num

/-- A power of two from `2^-1022` on is its own rounding. -/
theorem roundMagnitude_two_zpow (e : ℤ) (he : -1022 ≤ e) :
    roundMagnitude ((2 : ℚ) ^ e) = (2 : ℚ) ^ e := by
  have hlog : Int.log 2 ((2 : ℚ) ^ e) = e :=
    log2_eq _ e (by positivity) le_rfl (zpow_lt_zpow_right₀ (by norm_num) (by omega))
  have hq : quantum ((2 : ℚ) ^ e) = (2 : ℚ) ^ (e - 52) := by
    unfold quantum
    rw [hlog, max_eq_left he]
  apply roundMagnitude_of_multiple _ (2 ^ 52)
  rw [hq, ← zpow_sub₀ (by norm_num : (2 : ℚ) ≠ 0), show e - (e - 52) = 52 by ring]
  norm_num

/-- A power of two with a natural exponent is its own rounding. -/
theorem toDouble_two_pow (n : ℕ) : toDouble ((2 : ℚ) ^ n) = (2 : ℚ) ^ n := by
  unfold toDouble
  rw [if_pos (by positivity)]
  have h := roundMagnitude_two_zpow (n : ℤ) (by omega)
  rwa [zpow_natCast] at h

/-- On a non-empty array (every JavaScript array is shorter than `2^32`) and a
double draw in `[0, 1)`, `getRandomItem` returns an element of the array. -/
theorem getRandomItem_mem {β : Type} (r : ℚ) (array : List β) (hne : array ≠ [])
    (hlen : array.length < 2 ^ 32) (h0 : 0 ≤ r) (h1 : r < 1) (hd : isDouble r) :
    ∃ i : Nat, i < array.length ∧
      getRandomInt r 0 ((array.length : Int) - 1) = (i : Int) ∧
      ∃ x, getRandomItem r array = some x ∧ array[i]? = some x := by
  have hpos : 0 < array.length := List.length_pos.mpr hne
  have hb := getRandomInt_mem r 0 ((array.length : Int) - 1) (by omega) h0 h1 hd (by omega)
    (by omega)
  refine ⟨(getRandomInt r 0 ((array.length : Int) - 1)).toNat, by omega, by omega, ?_⟩
  have hi : (getRandomInt r 0 ((array.length : Int) - 1)).toNat < array.length := by omega
  refine ⟨array[(getRandomInt r 0 ((array.length : Int) - 1)).toNat], ?_, ?_⟩
  · unfold getRandomItem arrayAt
    rw [if_neg (by omega)]
    exact List.getElem?_eq_getElem hi
  · exact List.getElem?_eq_getElem hi

/-- When every iteration has a selection whose quantity satisfies `P`, the
order loop returns, adds one item per iteration, and every added item has a
quantity satisfying `P`. -/
theorem orderItemsLoop_total {α : Type} [Add α] [Mul α] [IntCast α]
    (select : Nat → Option (Product α × Int)) (P : Int → Prop)
    (hsel : ∀ j, ∃ product quantity, select j = some (product, quantity) ∧ P quantity) :
    ∀ (n i : Nat) (acc : List (OrderItem α) × α),
      ∃ res, orderItemsLoop select n i acc = some res ∧
        res.1.length = acc.1.length + n ∧
        ∀ item ∈ res.1, item ∈ acc.1 ∨ P item.quantity := by
  intro n
  induction n with
  | zero => intro i acc; exact ⟨acc, rfl, rfl, fun item h => Or.inl h⟩
  | succ n ih =>
    intro i acc
    obtain ⟨product, quantity, hs, hP⟩ := hsel i
    obtain ⟨res, hres, hlen, hitems⟩ := ih (i + 1)
      (acc.1 ++ [orderItem product quantity], acc.2 + product.price * (quantity : α))
    refine ⟨res, ?_, ?_, ?_⟩
    · simp only [orderItemsLoop, hs]
      exact hres
    · rw [hlen]
      simp
      omega
    · intro item hitem
      rcases hitems item hitem with h | h
      · simp only [List.mem_append, List.mem_singleton] at h
        rcases h with h | h
        · exact Or.inl h
        · right
          rw [h]
          exact hP
      · exact Or.inr h

/-- The rounding of `-x` is minus the rounding of `x`. -/
theorem toDouble_neg (x : ℚ) : toDouble (-x) = -toDouble x := by
  unfold toDouble
  rcases lt_trichotomy x 0 with h | h | h
  · rw [if_pos (by linarith), if_neg (by linarith)]
    simp
  · subst h
    simp [roundMagnitude_zero]
  · rw [if_neg (by linarith), if_pos (by linarith), neg_neg]

/-- The powers of two up to `2^1023` are doubles. -/
theorem isDouble_two_pow (n : ℕ) (hn : n < 1024) : isDouble ((2 : ℚ) ^ n) := by
  have hlt : (2 : ℚ) ^ n < (2 : ℚ) ^ 1024 := pow_lt_pow_right₀ (by norm_num) hn
  have hpos : (0 : ℚ) < (2 : ℚ) ^ n := by positivity
  unfold isDouble JsNumber.ofExact
  rw [toDouble_two_pow, if_pos ⟨by linarith, hlt⟩]

/-- The negative of a double is a double. -/
theorem isDouble_neg (x : ℚ) (h : isDouble x) : isDouble (-x) := by
  have hx := isDouble_toDouble x h
  unfold isDouble JsNumber.ofExact at h ⊢
  rw [toDouble_neg, hx]
  rw [hx] at h
  split_ifs at h with hb
  rw [if_pos ⟨by linarith [hb.2], by linarith [hb.1]⟩]

/-- C17 fails as stated, in two ways. With the product taken exactly the
formula is not what the code computes: at the draw 0.6 (the double
`5404319552844595 / 2^53`) the exact `floor(r * 5) + 0` is 2, while the code
rounds the product to 3.0 and `getRandomInt(0, 4)` is 3. And the range does not
hold for all integers: `-2^1023` and `2^1023` are integers and doubles, their
difference overflows, and with the draw 1/2 `getRandomInt(-2^1023, 2^1023)` is
`Infinity`, which is not an integer between the bounds. -/
theorem C17_rounded_product_and_overflow :
    (isDouble (5404319552844595 / 9007199254740992) ∧
      getRandomInt (5404319552844595 / 9007199254740992) 0 4 = 3 ∧
      Int.floor ((5404319552844595 / 9007199254740992 : ℚ) * ((4 - 0 + 1 : Int) : ℚ)) + 0 = 2) ∧
    ((-(2 ^ 1023) : Int) ≤ 2 ^ 1023 ∧ isDouble (1 / 2) ∧
      isDouble ((-(2 ^ 1023) : Int) : ℚ) ∧ isDouble ((2 ^ 1023 : Int) : ℚ) ∧
      JsNumber.getRandomInt (.finite (1 / 2)) (.finite ((-(2 ^ 1023) : Int) : ℚ))
        (.finite ((2 ^ 1023 : Int) : ℚ)) = .posInf) := by
  have hcast : ((2 ^ 1023 : Int) : ℚ) = (2 : ℚ) ^ 1023 := by
    simp only [Int.cast_pow, Int.cast_ofNat]
  have hcastneg : ((-(2 ^ 1023) : Int) : ℚ) = -(2 : ℚ) ^ 1023 := by
    simp only [Int.cast_neg, Int.cast_pow, Int.cast_ofNat]
  have hsub : (JsNumber.finite (((2 ^ 1023 : Int) : ℚ))).sub
      (.finite ((-(2 ^ 1023) : Int) : ℚ)) = .posInf := by
    have e : (((2 ^ 1023 : Int) : ℚ)) + -((-(2 ^ 1023) : Int) : ℚ) = (2 : ℚ) ^ 1024 := by
      rw [hcast, hcastneg, neg_neg, ← two_mul, ← pow_succ']
    simp only [JsNumber.sub, JsNumber.neg, JsNumber.add, e]
    unfold JsNumber.ofExact
    rw [toDouble_two_pow, if_neg (fun h => lt_irrefl _ h.2), if_pos (by positivity)]
  have hadd : JsNumber.posInf.add (.finite 1) = .posInf := rfl
  have hmul : (JsNumber.finite (1 / 2)).mul .posInf = .posInf := by
    simp only [JsNumber.mul]
    rw [if_neg (by norm_num), if_pos (by norm_num)]
  refine ⟨⟨isDouble_point_six, getRandomInt_point_six.1, ?_⟩,
    neg_le_self (by positivity), isDouble_half, ?_, ?_, ?_⟩
  · have : Int.floor ((5404319552844595 / 9007199254740992 : ℚ) * ((4 - 0 + 1 : Int) : ℚ)) =
        2 := by
      rw [Int.floor_eq_iff]
      constructor <;> norm_num
    rw [this]
    rfl
  · rw [hcastneg]
    exact isDouble_neg _ (isDouble_two_pow 1023 (by norm_num))
  · rw [hcast]
    exact isDouble_two_pow 1023 (by norm_num)
  · unfold JsNumber.getRandomInt
    rw [hsub, hadd, hmul]
    rfl

/-- C17 as amended: for all integers `min ≤ max` between `-2^51` and `2^51`
and every draw `r` that is a double with `0 ≤ r < 1`, `getRandomInt(min, max)`
is the finite number `floor(p) + min`, where `p` is the product
`r * (max - min + 1)` rounded to the nearest double, and it is an integer of
`min .. max`. Consequently, when every draw `rand k` of an invocation is a
double in `[0, 1)` and the arrays are non-empty: the delta published by
`simulateInventoryUpdate` lies in `-10 .. 20`, the order published by
`simulateOrderCreation` has 1 to 3 lines each with a quantity from 1 to 3, and
`getRandomItem` returns an element at an index inside the array. -/
theorem C17_getRandomInt_in_range {α : Type} [Zero α] [Add α] [Mul α] [IntCast α]
    (min max : Int) (r : ℚ) (rand : Nat → ℚ)
    (hlo : -(2 ^ 51) ≤ min) (hmm : min ≤ max) (hhi : max ≤ 2 ^ 51)
    (h0 : 0 ≤ r) (h1 : r < 1) (hd : isDouble r)
    (hrand : ∀ k, 0 ≤ rand k ∧ rand k < 1) (hdouble : ∀ k, isDouble (rand k)) :
    JsNumber.getRandomInt (.finite r) (.finite min) (.finite max) =
      .finite ((Int.floor (toDouble (r * ((max - min + 1 : Int) : ℚ))) + min : Int) : ℚ) ∧
    getRandomInt r min max =
      Int.floor (toDouble (r * ((max - min + 1 : Int) : ℚ))) + min ∧
    (min ≤ getRandomInt r min max ∧ getRandomInt r min max ≤ max) ∧
    (∀ (β : Type) (array : List β), array ≠ [] → array.length < 2 ^ 32 →
      ∃ i : Nat, i < array.length ∧
        getRandomInt r 0 ((array.length : Int) - 1) = (i : Int) ∧
        ∃ x, getRandomItem r array = some x ∧ array[i]? = some x) ∧
    (∀ (products : List (Product α)) (now : Nat → Nat),
      products ≠ [] → products.length < 2 ^ 32 →
      ∃ newProducts first rest productId productName previousStock currentStock,
        simulateInventoryUpdate products rand now = some (newProducts, first :: rest) ∧
        first.eventData.data =
          .inventoryUpdated productId productName previousStock currentStock
            (getRandomInt (rand 1) (-10) 20) ∧
        -10 ≤ getRandomInt (rand 1) (-10) 20 ∧ getRandomInt (rand 1) (-10) 20 ≤ 20) ∧
    (∀ (customers : List Customer) (products : List (Product α)) (now : Nat → Nat),
      customers ≠ [] → customers.length < 2 ^ 32 →
      products ≠ [] → products.length < 2 ^ 32 →
      ∃ call pending orderId customerId customerName orderDate items totalAmount,
        simulateOrderCreation customers products rand now = some (call, pending) ∧
        call.eventData.data =
          .orderCreated orderId customerId customerName orderDate items totalAmount
            "created" ∧
        1 ≤ items.length ∧ items.length ≤ 3 ∧
        ∀ item ∈ items, 1 ≤ item.quantity ∧ item.quantity ≤ 3) := by
  refine ⟨(getRandomInt_number_eq r min max h0 h1 hlo hmm hhi).1,
    getRandomInt_eq r min max h0 h1 hlo hmm hhi,
    getRandomInt_mem r min max hmm h0 h1 hd hlo hhi,
    fun β array hne hlen => getRandomItem_mem r array hne hlen h0 h1 hd, ?_, ?_⟩
  · intro products now hne hlen
    obtain ⟨i, -, hi, x, hx, -⟩ :=
      getRandomItem_mem (rand 0) products hne hlen (hrand 0).1 (hrand 0).2 (hdouble 0)
    have hdelta := getRandomInt_mem (rand 1) (-10) 20 (by decide) (hrand 1).1 (hrand 1).2
      (hdouble 1) (by norm_num) (by norm_num)
    have hat : arrayAt products (getRandomInt (rand 0) 0 ((products.length : Int) - 1)) =
        some x := hx
    simp only [simulateInventoryUpdate, simulateInventoryUpdateWith, hat, inventoryUpdateCalls]
    split_ifs <;> exact ⟨_, _, _, _, _, _, _, rfl, rfl, hdelta.1, hdelta.2⟩
  · intro customers products now hc hclen hp hplen
    obtain ⟨-, -, -, customer, hcustomer, -⟩ :=
      getRandomItem_mem (rand 0) customers hc hclen (hrand 0).1 (hrand 0).2 (hdouble 0)
    have hcount := getRandomInt_mem (rand 2) 1 3 (by decide) (hrand 2).1 (hrand 2).2
      (hdouble 2) (by norm_num) (by norm_num)
    have hsel : ∀ j, ∃ product quantity,
        ((getRandomItem (rand (3 + 2 * j)) products).map
          fun product => (product, getRandomInt (rand (4 + 2 * j)) 1 3)) =
            some (product, quantity) ∧ (1 ≤ quantity ∧ quantity ≤ 3) := by
      intro j
      obtain ⟨-, -, -, product, hproduct, -⟩ :=
        getRandomItem_mem (rand (3 + 2 * j)) products hp hplen (hrand _).1 (hrand _).2
          (hdouble _)
      exact ⟨product, _, by rw [hproduct]; rfl,
        getRandomInt_mem (rand (4 + 2 * j)) 1 3 (by decide) (hrand _).1 (hrand _).2
          (hdouble _) (by norm_num) (by norm_num)⟩
    obtain ⟨res, hres, hlen, hitems⟩ :=
      orderItemsLoop_total
        (fun i => (getRandomItem (rand (3 + 2 * i)) products).map
          fun product => (product, getRandomInt (rand (4 + 2 * i)) 1 3))
        (fun q => 1 ≤ q ∧ q ≤ 3) hsel (getRandomInt (rand 2) 1 3).toNat 0 ([], 0)
    obtain ⟨items, total⟩ := res
    have hsim : simulateOrderCreation customers products rand now =
        some
          ({ topicName := config.topics.orders.created
             eventData :=
               { eventType := "OrderCreated"
                 timestamp := now 1
                 correlationId := none
                 data := .orderCreated (generateOrderId (now 0) (rand 1)) customer.id
                   customer.name (now 2) items total "created" } },
           { orderId := generateOrderId (now 0) (rand 1), customer := customer,
             totalAmount := total, delayMs := 2000 }) := by
      simp only [simulateOrderCreation, simulateOrderCreationWith, hres, hcustomer]
    refine ⟨_, _, _, _, _, _, items, total, hsim, rfl, ?_, ?_, ?_⟩
    · simp only [List.length_nil, Nat.zero_add] at hlen
      omega
    · simp only [List.length_nil, Nat.zero_add] at hlen
      omega
    · intro item hitem
      rcases hitems item hitem with h | h
      · simp at h
      · exact h

/-- Witness of C17 as amended: the draw 0.6 (the double `5404319552844595 /
2^53`) for every random number, range 200 .. 999, where the result is 680. -/
theorem C17_getRandomInt_in_range_witness :
    (-(2 ^ 51) : Int) ≤ 200 ∧ (200 : Int) ≤ 999 ∧ (999 : Int) ≤ 2 ^ 51 ∧
    (0 : ℚ) ≤ 5404319552844595 / 9007199254740992 ∧
    (5404319552844595 / 9007199254740992 : ℚ) < 1 ∧
    isDouble (5404319552844595 / 9007199254740992) ∧
    getRandomInt (5404319552844595 / 9007199254740992) 200 999 = 680 ∧
    (200 ≤ getRandomInt (5404319552844595 / 9007199254740992) 200 999 ∧
      getRandomInt (5404319552844595 / 9007199254740992) 200 999 ≤ 999) :=
  ⟨by norm_num, by norm_num, by norm_num, by norm_num, by norm_num, isDouble_point_six,
    getRandomInt_point_six.2,
    (@C17_getRandomInt_in_range ℚ _ _ _ _ 200 999 (5404319552844595 / 9007199254740992)
      (fun _ => 5404319552844595 / 9007199254740992) (by norm_num) (by norm_num)
      (by norm_num) (by norm_num) (by norm_num) isDouble_point_six
      (fun _ => ⟨by norm_num, by norm_num⟩) (fun _ => isDouble_point_six)).2.2.1⟩

/-! ## Customer registration -/

set_option maxRecDepth 100000 in
/-- None of the identifiers `c200` .. `c999` is the id of a pre-seeded
customer. -/
theorem synthesised_id_not_seeded :
    ∀ k : Fin 800,
      ("c" ++ toString (((k : Nat) + 200 : Nat) : Int)) ∉ ["c101", "c102", "c103", "c104"] := by
  decide

/-- C13: for every random draw, a double in `[0, 1)`,
`simulateCustomerRegistration` publishes one envelope, with `eventType` `CustomerRegistered`, on the
`customers/registered` topic, and its synthesised customer id `c` followed by
`getRandomInt(200, 999)` differs from the id of every pre-seeded customer
(`c101`, `c102`, `c103`, `c104`). -/
theorem C13_new_customer_id_is_fresh {α : Type} (rand : Nat → ℚ) (now : Nat → Nat)
    (h0 : 0 ≤ rand 0) (h1 : rand 0 < 1) (hd : isDouble (rand 0)) :
    (simulateCustomerRegistration rand now : List (PublishCall α)) =
      [{ topicName := "ecommerce/customers/registered"
         eventData :=
           { eventType := "CustomerRegistered"
             timestamp := now 0
             correlationId := none
             data := .customerRegistered
               ("c" ++ toString (getRandomInt (rand 0) 200 999))
               ("New Customer " ++ ("c" ++ toString (getRandomInt (rand 0) 200 999)))
               ("customer" ++ ("c" ++ toString (getRandomInt (rand 0) 200 999)) ++
                 "@example.com")
               (now 1) } }] ∧
    customers.map (fun c => c.id) = ["c101", "c102", "c103", "c104"] ∧
    ∀ c ∈ customers, c.id ≠ "c" ++ toString (getRandomInt (rand 0) 200 999) := by
  have hids : customers.map (fun c => c.id) = ["c101", "c102", "c103", "c104"] := rfl
  refine ⟨rfl, hids, ?_⟩
  intro c hc heq
  have hb := getRandomInt_mem (rand 0) 200 999 (by decide) h0 h1 hd (by norm_num)
    (by norm_num)
  have hk : (getRandomInt (rand 0) 200 999 - 200).toNat < 800 := by omega
  have hn : getRandomInt (rand 0) 200 999 =
      ((((⟨(getRandomInt (rand 0) 200 999 - 200).toNat, hk⟩ : Fin 800) : Nat) + 200 : Nat) : Int) := by
    simp only
    omega
  have hfresh := synthesised_id_not_seeded ⟨(getRandomInt (rand 0) 200 999 - 200).toNat, hk⟩
  rw [← hn, ← heq, ← hids] at hfresh
  exact hfresh (List.mem_map.mpr ⟨c, hc, rfl⟩)

/-- Witness of C13: the draw 0.6 (the double `5404319552844595 / 2^53`) gives
the number 680, so the id `c680`. -/
theorem C13_new_customer_id_is_fresh_witness :
    (0 : ℚ) ≤ 5404319552844595 / 9007199254740992 ∧
    (5404319552844595 / 9007199254740992 : ℚ) < 1 ∧
    isDouble (5404319552844595 / 9007199254740992) ∧
    getRandomInt (5404319552844595 / 9007199254740992) 200 999 = 680 ∧
    ∀ c ∈ customers, c.id ≠ "c" ++ toString
      (getRandomInt (5404319552844595 / 9007199254740992) 200 999) :=
  ⟨by norm_num, by norm_num, isDouble_point_six, getRandomInt_point_six.2,
    (@C13_new_customer_id_is_fresh ℚ (fun _ => 5404319552844595 / 9007199254740992)
      (fun k => k) (by norm_num) (by norm_num) isDouble_point_six).2.2⟩

/-! ## Order identifiers -/

/-- C12 at the failing input: two invocations of `generateOrderId` that read
the same millisecond and draw 0.5 and 0.50001 both get the suffix 5500 and
return the same identifier. -/
theorem C12_same_millisecond_same_suffix :
    (1 / 2 : ℚ) ≠ 50001 / 100000 ∧
    getRandomInt (1 / 2) 1000 9999 = 5500 ∧
    getRandomInt (50001 / 100000) 1000 9999 = 5500 ∧
    generateOrderId 1700000000000 (1 / 2) = generateOrderId 1700000000000 (50001 / 100000) := by
  have ha : getRandomInt (1 / 2) 1000 9999 = 5500 := by
    rw [getRandomInt_eq _ _ _ (by norm_num) (by norm_num) (by norm_num) (by norm_num)
      (by norm_num)]
    have hx : (1 / 2 : ℚ) * ((9999 - 1000 + 1 : Int) : ℚ) = ((4500 : Int) : ℚ) := by norm_num
    rw [hx, toDouble_intCast 4500 (by norm_num) (by norm_num), Int.floor_intCast]
    rfl
  have hb : getRandomInt (50001 / 100000) 1000 9999 = 5500 := by
    rw [getRandomInt_eq _ _ _ (by norm_num) (by norm_num) (by norm_num) (by norm_num)
      (by norm_num)]
    rw [floor_toDouble _ 4500 (by norm_num) (by norm_num) (by norm_num)]
    rfl
  refine ⟨by norm_num, ha, hb, ?_⟩
  unfold generateOrderId
  rw [ha, hb]

/-- The same collision at the doubles themselves: 0.5 and the double nearest
to 0.50001, `4503689699363043 / 2^53`, are distinct draws with the suffix 5500,
so two invocations reading the same millisecond return the same identifier. -/
theorem generateOrderId_collision_at_doubles :
    isDouble (1 / 2) ∧ isDouble (4503689699363043 / 9007199254740992) ∧
    (1 / 2 : ℚ) ≠ 4503689699363043 / 9007199254740992 ∧
    getRandomInt (4503689699363043 / 9007199254740992) 1000 9999 = 5500 ∧
    generateOrderId 1700000000000 (1 / 2) =
      generateOrderId 1700000000000 (4503689699363043 / 9007199254740992) := by
  have ha : getRandomInt (1 / 2) 1000 9999 = 5500 := by
    rw [getRandomInt_eq _ _ _ (by norm_num) (by norm_num) (by norm_num) (by norm_num)
      (by norm_num)]
    have hx : (1 / 2 : ℚ) * ((9999 - 1000 + 1 : Int) : ℚ) = ((4500 : Int) : ℚ) := by norm_num
    rw [hx, toDouble_intCast 4500 (by norm_num) (by norm_num), Int.floor_intCast]
    rfl
  have hb : getRandomInt (4503689699363043 / 9007199254740992) 1000 9999 = 5500 := by
    rw [getRandomInt_eq _ _ _ (by norm_num) (by norm_num) (by norm_num) (by norm_num)
      (by norm_num)]
    rw [floor_toDouble _ 4500 (by norm_num) (by norm_num) (by norm_num)]
    rfl
  refine ⟨isDouble_half,
    isDouble_of_mantissa _ 4503689699363043 (by norm_num) (by norm_num) (by norm_num),
    by norm_num, hb, ?_⟩
  unfold generateOrderId
  rw [ha, hb]

/-! ## Frame of the publisher operations -/

/-- C14: on the state `(products, customers)`, with non-empty arrays (shorter
than `2^32`, as every JavaScript array is) and draws that are doubles in
`[0, 1)` (as every value of `Math.random()` is): `simulateInventoryUpdate` returns and replaces only the stock of
the one drawn product by the published `currentStock`, keeping that product's
id, name, category and price, every other product and every customer;
`simulateCustomerRegistration`, `simulateOrderCreation` and the delayed
follow-up return and leave products and customers as they were. -/
theorem C14_only_stock_of_drawn_product_changes {α : Type} [Zero α] [Add α] [Mul α]
    [IntCast α] (st : PublisherState α) (rand : Nat → ℚ) (now : Nat → Nat)
    (hproducts : st.products ≠ []) (hcustomers : st.customers ≠ [])
    (hrand : ∀ k, 0 ≤ rand k ∧ rand k < 1)
    (hlength : st.products.length < 2 ^ 32 ∧ st.customers.length < 2 ^ 32)
    (hdouble : ∀ k, isDouble (rand k)) :
    (∃ (out : Outcome α) (i : Nat) (product : Product α) (currentStock change : Int)
        (rest : List (PublishCall α)) (updated : Product α),
      st.simulateInventoryUpdate rand now = some out ∧
      st.products[i]? = some product ∧
      out.calls =
        { topicName := "ecommerce/inventory/updated"
          eventData :=
            { eventType := "InventoryUpdated"
              timestamp := now 0
              correlationId := none
              data := .inventoryUpdated product.id product.name product.stock
                currentStock change } } :: rest ∧
      out.state.products = st.products.set i { product with stock := currentStock } ∧
      out.state.products.length = st.products.length ∧
      out.state.products[i]? = some updated ∧
      updated.stock = currentStock ∧ updated.id = product.id ∧
      updated.name = product.name ∧ updated.category = product.category ∧
      updated.price = product.price ∧
      (∀ j, j ≠ i → out.state.products[j]? = st.products[j]?) ∧
      out.state.customers = st.customers) ∧
    (∃ out, st.simulateCustomerRegistration rand now = some out ∧ out.state = st) ∧
    (∃ out, st.simulateOrderCreation rand now = some out ∧ out.state = st) ∧
    (∀ (p : PendingPayment α) (r : ℚ),
      ∃ out, st.paymentFollowUp p r now = some out ∧ out.state = st) := by
  refine ⟨?_, ⟨_, rfl, rfl⟩, ?_, fun p r => ⟨_, rfl, rfl⟩⟩
  · obtain ⟨i, hi, hidx, product, hitem, hget⟩ :=
      getRandomItem_mem (rand 0) st.products hproducts hlength.1 (hrand 0).1 (hrand 0).2
        (hdouble 0)
    have hat : arrayAt st.products (getRandomInt (rand 0) 0 ((st.products.length : Int) - 1)) =
        some product := hitem
    have hcalls : ∃ rest, (inventoryUpdateCalls product (getRandomInt (rand 1) (-10) 20) now).2 =
        ({ topicName := "ecommerce/inventory/updated"
           eventData :=
             { eventType := "InventoryUpdated"
               timestamp := now 0
               correlationId := none
               data := .inventoryUpdated product.id product.name product.stock
                 (max 0 (product.stock + getRandomInt (rand 1) (-10) 20))
                 (getRandomInt (rand 1) (-10) 20) } } : PublishCall α) :: rest := by
      simp only [inventoryUpdateCalls, config.topics.inventory.updated]
      split_ifs <;> exact ⟨_, rfl⟩
    obtain ⟨rest, hrest⟩ := hcalls
    have hstock : (inventoryUpdateCalls product (getRandomInt (rand 1) (-10) 20) now).1 =
        max 0 (product.stock + getRandomInt (rand 1) (-10) 20) := rfl
    have htoNat : (getRandomInt (rand 0) 0 ((st.products.length : Int) - 1)).toNat = i := by
      omega
    have hsim : st.simulateInventoryUpdate rand now =
        some
          { state :=
              { st with
                products := st.products.set i
                  { product with
                    stock := max 0 (product.stock + getRandomInt (rand 1) (-10) 20) } }
            calls := (inventoryUpdateCalls product (getRandomInt (rand 1) (-10) 20) now).2
            timers := [] } := by
      simp only [PublisherState.simulateInventoryUpdate, simulateInventoryUpdate,
        simulateInventoryUpdateWith, hat, Option.map_some', htoNat, hstock]
    refine ⟨_, i, product, max 0 (product.stock + getRandomInt (rand 1) (-10) 20),
      getRandomInt (rand 1) (-10) 20, rest,
      { product with stock := max 0 (product.stock + getRandomInt (rand 1) (-10) 20) },
      hsim, hget, hrest, rfl, ?_, ?_, rfl, rfl, rfl, rfl, rfl, ?_, rfl⟩
    · simp
    · simp only [List.getElem?_set, hi, if_true]
    · intro j hj
      exact List.getElem?_set_ne (fun h => hj h.symm)
  · obtain ⟨-, -, -, customer, hcustomer, -⟩ :=
      getRandomItem_mem (rand 0) st.customers hcustomers hlength.2 (hrand 0).1 (hrand 0).2
        (hdouble 0)
    have hsel : ∀ j, ∃ product quantity,
        ((getRandomItem (rand (3 + 2 * j)) st.products).map
          fun product => (product, getRandomInt (rand (4 + 2 * j)) 1 3)) =
            some (product, quantity) ∧ True := by
      intro j
      obtain ⟨-, -, -, product, hproduct, -⟩ :=
        getRandomItem_mem (rand (3 + 2 * j)) st.products hproducts hlength.1 (hrand _).1
          (hrand _).2 (hdouble _)
      exact ⟨product, _, by rw [hproduct]; rfl, trivial⟩
    obtain ⟨res, hres, -, -⟩ :=
      orderItemsLoop_total
        (fun i => (getRandomItem (rand (3 + 2 * i)) st.products).map
          fun product => (product, getRandomInt (rand (4 + 2 * i)) 1 3))
        (fun _ => True) hsel (getRandomInt (rand 2) 1 3).toNat 0 ([], 0)
    have hsim : ∃ r, EcommerceMesh.simulateOrderCreation st.customers st.products rand now =
        some r := by
      simp only [simulateOrderCreation, simulateOrderCreationWith, hres, hcustomer]
      exact ⟨_, rfl⟩
    obtain ⟨r, hr⟩ := hsim
    exact ⟨{ state := st, calls := [r.1], timers := [r.2] },
      by simp only [PublisherState.simulateOrderCreation, hr, Option.map_some'], rfl⟩

/-! ## The topic matcher -/

/-- Without a multi-level wildcard, a pattern matches a topic exactly when both
have the same number of segments and every pattern segment other than `*`
equals the topic segment at its position. -/
theorem matchSegments_iff (pattern : List String) (hmulti : ">" ∉ pattern) :
    ∀ topic : List String,
      matchSegments topic pattern = true ↔
        topic.length = pattern.length ∧
        ∀ i (hp : i < pattern.length) (ht : i < topic.length),
          pattern.get ⟨i, hp⟩ ≠ "*" → pattern.get ⟨i, hp⟩ = topic.get ⟨i, ht⟩ := by
  induction pattern with
  | nil =>
    intro topic
    cases topic <;> simp [matchSegments]
  | cons p ps ih =>
    intro topic
    have hp : p ≠ ">" := fun h => hmulti (by simp [h])
    have hps : ">" ∉ ps := fun h => hmulti (by simp [h])
    cases topic with
    | nil => simp [matchSegments, hp]
    | cons t ts =>
      simp only [matchSegments, hp, false_and, if_false, Bool.and_eq_true, Bool.or_eq_true,
        decide_eq_true_eq, ih hps ts, List.length_cons, Nat.add_right_cancel_iff]
      constructor
      · rintro ⟨hhead, hlen, hrest⟩
        refine ⟨hlen, ?_⟩
        intro i hi ht hne
        cases i with
        | zero =>
          rcases hhead with h | h
          · exact absurd h hne
          · exact h
        | succ j => exact hrest j (by simpa using hi) (by simpa using ht) hne
      · rintro ⟨hlen, hall⟩
        refine ⟨?_, hlen, ?_⟩
        · by_cases hstar : p = "*"
          · exact Or.inl hstar
          · exact Or.inr (hall 0 (by simp) (by simp) hstar)
        · intro i hi ht hne
          exact hall (i + 1) (by simpa using hi) (by simpa using ht) hne

theorem splitSegments_append (b x : List Char) :
    ∀ current : List Char,
      splitSegments current (b ++ '/' :: x) = splitSegments current b ++ splitSegments [] x := by
  induction b with
  | nil => intro current; simp [splitSegments]
  | cons c cs ih =>
    intro current
    by_cases hc : c = '/'
    · simp [splitSegments, hc, ih]
    · simp [splitSegments, hc, ih]

/-- A pattern made of a base followed by a final `>` matches the base followed
by anything, nothing included. -/
theorem matchSegments_multi (base rest : List String) :
    matchSegments (base ++ rest) (base ++ [">"]) = true := by
  induction base with
  | nil => cases rest <;> simp [matchSegments]
  | cons s base ih => simp [matchSegments, ih]

/-- C15: for every topic `T` and every pattern `P` without a multi-level
wildcard segment, `matches(T, P)` holds iff `T` and `P` have the same number of
segments and every segment of `P` other than `*` equals the segment of `T` at
its position; `a/*/c` matches `a/b/c` and matches neither `a/b` nor
`a/b/c/d`. -/
theorem C15_single_level_matching (T P : String) (hmulti : ">" ∉ segments P) :
    (topicMatches T P = true ↔
      (segments T).length = (segments P).length ∧
      ∀ i (hp : i < (segments P).length) (ht : i < (segments T).length),
        (segments P).get ⟨i, hp⟩ ≠ "*" →
          (segments P).get ⟨i, hp⟩ = (segments T).get ⟨i, ht⟩) ∧
    topicMatches "a/b/c" "a/*/c" = true ∧
    topicMatches "a/b" "a/*/c" = false ∧
    topicMatches "a/b/c/d" "a/*/c" = false :=
  ⟨matchSegments_iff (segments P) hmulti (segments T), by decide, by decide, by decide⟩

/-- Witness of C15: the pattern `ecommerce/orders/*` and the topic
`ecommerce/orders/created`. -/
theorem C15_single_level_matching_witness :
    ">" ∉ segments "ecommerce/orders/*" ∧
    segments "ecommerce/orders/*" = ["ecommerce", "orders", "*"] ∧
    segments "ecommerce/orders/created" = ["ecommerce", "orders", "created"] ∧
    topicMatches "ecommerce/orders/created" "ecommerce/orders/*" = true := by
  have hmulti : ">" ∉ segments "ecommerce/orders/*" := by decide
  refine ⟨hmulti, by decide, by decide, ?_⟩
  rw [(C15_single_level_matching "ecommerce/orders/created" "ecommerce/orders/*" hmulti).1]
  decide

/-- C16: for every base path `B` and every sequence of further segments `X`,
the pattern `B/>` matches `B/X`, and it also matches `B` itself (zero trailing
segments); so `ecommerce/>` matches every topic under `ecommerce`. -/
theorem C16_multi_level_matching (B X : String) :
    topicMatches (B ++ "/" ++ X) (B ++ "/>") = true ∧
    topicMatches B (B ++ "/>") = true ∧
    topicMatches ("ecommerce" ++ "/" ++ X) "ecommerce/>" = true ∧
    topicMatches "ecommerce" "ecommerce/>" = true := by
  have hpattern : ∀ b : String, segments (b ++ "/>") = segments b ++ [">"] := by
    intro b
    simp only [segments, String.data_append]
    exact splitSegments_append b.data ['>'] []
  have htopic : ∀ b x : String, segments (b ++ "/" ++ x) = segments b ++ segments x := by
    intro b x
    simp only [segments, String.data_append, List.append_assoc]
    exact splitSegments_append b.data x.data []
  have h1 : ∀ b x : String, topicMatches (b ++ "/" ++ x) (b ++ "/>") = true := by
    intro b x
    simp only [topicMatches, hpattern, htopic]
    exact matchSegments_multi _ _
  have h2 : ∀ b : String, topicMatches b (b ++ "/>") = true := by
    intro b
    simp only [topicMatches, hpattern]
    simpa using matchSegments_multi (segments b) []
  exact ⟨h1 B X, h2 B, h1 "ecommerce" X, h2 "ecommerce"⟩

/-! ## Correlation of the follow-up envelopes -/

/-- C18: for every simulated order (any customer, order identifier and
sequence of selections) `simulateOrderCreation` returns, and on either payment
branch both follow-up envelopes have `correlationId` and `data.orderId` equal
to the `data.orderId` of the `OrderCreated` envelope, while the payment
envelope (`PaymentAuthorized` or `PaymentFailed`) has `data.customerId` equal
to the `OrderCreated` `customerId` and `data.amount` equal to its
`totalAmount`. -/
theorem C18_followups_copy_order_fields {α : Type} [Zero α] [Add α] [Mul α] [IntCast α]
    (customer : Customer) (orderId : String) (sels : List (Product α × Int))
    (select : Nat → Option (Product α × Int)) (now : Nat → Nat)
    (hsel : ∀ j (hj : j < sels.length), select j = some (sels.get ⟨j, hj⟩)) :
    ∃ call pending createdOrderId createdCustomerId createdTotal,
      simulateOrderCreationWith (some customer) orderId (sels.length : Int) select now =
        some (call, pending) ∧
      call.eventData.eventType = "OrderCreated" ∧
      call.eventData.data.orderId? = some createdOrderId ∧
      call.eventData.data.customerId? = some createdCustomerId ∧
      call.eventData.data.totalAmount? = some createdTotal ∧
      ∀ (r : ℚ) (now2 : Nat → Nat),
        ∃ payment order, paymentFollowUp pending r now2 = [payment, order] ∧
          (payment.eventData.eventType = "PaymentAuthorized" ∨
            payment.eventData.eventType = "PaymentFailed") ∧
          payment.eventData.correlationId = some createdOrderId ∧
          order.eventData.correlationId = some createdOrderId ∧
          payment.eventData.data.orderId? = some createdOrderId ∧
          order.eventData.data.orderId? = some createdOrderId ∧
          payment.eventData.data.customerId? = some createdCustomerId ∧
          payment.eventData.data.amount? = some createdTotal := by
  have hloop := orderItemsLoop_eq select sels 0 ([], 0) (by simpa using hsel)
  have hsim : simulateOrderCreationWith (some customer) orderId (sels.length : Int) select now =
      some
        ({ topicName := config.topics.orders.created
           eventData :=
             { eventType := "OrderCreated"
               timestamp := now 1
               correlationId := none
               data := .orderCreated orderId customer.id customer.name (now 2)
                 (sels.map (fun s => orderItem s.1 s.2))
                 (sels.foldl (fun t s => t + s.1.price * (s.2 : α)) 0) "created" } },
         { orderId := orderId, customer := customer,
           totalAmount := sels.foldl (fun t s => t + s.1.price * (s.2 : α)) 0,
           delayMs := 2000 }) := by
    simp only [simulateOrderCreationWith, Int.toNat_ofNat, hloop, List.nil_append]
  refine ⟨_, _, orderId, customer.id,
    sels.foldl (fun (t : α) (s : Product α × Int) => t + s.1.price * (s.2 : α)) 0,
    hsim, rfl, rfl, rfl, rfl, ?_⟩
  intro r now2
  by_cases hr : r > pointOne
  · rw [paymentFollowUp_success _ _ _ hr]
    exact ⟨_, _, rfl, Or.inl rfl, rfl, rfl, rfl, rfl, rfl, rfl⟩
  · rw [paymentFollowUp_failure _ _ _ hr]
    exact ⟨_, _, rfl, Or.inr rfl, rfl, rfl, rfl, rfl, rfl, rfl⟩

/-- Witness of C18: an order of two Laptops for Bob. -/
theorem C18_followups_copy_order_fields_witness :
    ∃ call pending,
      simulateOrderCreationWith
        (some { id := "c102", name := "Bob Smith", email := "bob@example.com" })
        "ord-1700000000000-4321" 1
        (fun _ => some ({ id := "p1002", name := "Laptop", category := "electronics",
                          price := (1299.99 : ℚ), stock := 25 }, 2))
        (fun k => k) = some (call, pending) ∧
      call.eventData.data.customerId? = some "c102" ∧
      ∀ (r : ℚ) (now2 : Nat → Nat),
        ∃ payment order, paymentFollowUp pending r now2 = [payment, order] ∧
          payment.eventData.data.customerId? = some "c102" := by
  obtain ⟨call, pending, oid, cid, total, hsim, -, -, hcid, -, hfollow⟩ :=
    C18_followups_copy_order_fields
      { id := "c102", name := "Bob Smith", email := "bob@example.com" }
      "ord-1700000000000-4321"
      [({ id := "p1002", name := "Laptop", category := "electronics",
          price := (1299.99 : ℚ), stock := 25 }, 2)]
      (fun _ => some ({ id := "p1002", name := "Laptop", category := "electronics",
                        price := (1299.99 : ℚ), stock := 25 }, 2))
      (fun k => k) (by intro j hj; simp at hj; subst hj; rfl)
  have hsim2 : ∃ c p, simulateOrderCreationWith
        (some { id := "c102", name := "Bob Smith", email := "bob@example.com" })
        "ord-1700000000000-4321" 1
        (fun _ => some ({ id := "p1002", name := "Laptop", category := "electronics",
                          price := (1299.99 : ℚ), stock := 25 }, 2))
        (fun k => k) = some (c, p) ∧ c.eventData.data.customerId? = some "c102" := by
    simp [simulateOrderCreationWith, orderItemsLoop, EventData.customerId?]
  obtain ⟨c, p, hc, hc102⟩ := hsim2
  have heq : (call, pending) = (c, p) := Option.some.inj (hsim.symm.trans hc)
  obtain ⟨rfl, rfl⟩ := Prod.mk.inj heq
  have hcid2 : cid = "c102" := Option.some.inj (hcid.symm.trans hc102)
  subst hcid2
  refine ⟨call, pending, hc, hc102, ?_⟩
  intro r now2
  obtain ⟨payment, order, h1, -, -, -, -, -, h7, -⟩ := hfollow r now2
  exact ⟨payment, order, h1, h7⟩

/-! ## Rendering of the published envelopes -/

/-- A message whose body parses is rendered from the parsed value alone. -/
theorem processMessage_parsed {α : Type} [NatCast α]
    (jsonParse : String → Except String (JsVal α)) (topic body : String) (content : JsVal α)
    (properties : Option (List (String × String))) (timestamp : Nat)
    (hparse : jsonParse body = .ok content) :
    processMessage jsonParse
        { destination := topic, binaryAttachment := some body,
          userPropertyMap := .ok properties } timestamp =
      { lines := (runLogs (categoryLines topic timestamp content ++
          [logText "-----------------------------------"])).1
        thrown := (runLogs (categoryLines topic timestamp content ++
          [logText "-----------------------------------"])).2 } := by
  simp [processMessage, hparse]

/-- The header and tailored lines never print `undefined`. -/
theorem rendered_lines_defined {α : Type} [NatCast α] [IntCast α] (iso : Nat → String)
    (c : Category) (topic : String) (timestamp : Nat) (eventType : String)
    (data : EventData α) :
    ∀ line ∈ headerOf c topic timestamp eventType ++ tailoredLines iso data ++
        [[Piece.text "-----------------------------------"]],
      ∀ piece ∈ line, piece.isUndefined = false := by
  cases data <;>
    simp [headerOf, tailoredLines, Piece.isUndefined]

/-- Every publishable call has one of the nine shapes the publisher builds. -/
theorem publishable_shape {α : Type} [Zero α] [Add α] [Mul α] [IntCast α]
    (call : PublishCall α) (h : Publishable call) :
    ∃ (timestamp : Nat) (correlationId : Option String),
      (∃ a b c d, call = ⟨"ecommerce/customers/registered",
        ⟨"CustomerRegistered", timestamp, correlationId, .customerRegistered a b c d⟩⟩) ∨
      (∃ a b c d e, call = ⟨"ecommerce/inventory/updated",
        ⟨"InventoryUpdated", timestamp, correlationId, .inventoryUpdated a b c d e⟩⟩) ∨
      (∃ a b c d, call = ⟨"ecommerce/inventory/low-stock",
        ⟨"LowStock", timestamp, correlationId, .lowStock a b c d⟩⟩) ∨
      (∃ a b c, call = ⟨"ecommerce/inventory/out-of-stock",
        ⟨"OutOfStock", timestamp, correlationId, .outOfStock a b c⟩⟩) ∨
      (∃ a b c d e f g, call = ⟨"ecommerce/orders/created",
        ⟨"OrderCreated", timestamp, correlationId, .orderCreated a b c d e f g⟩⟩) ∨
      (∃ a b c d e, call = ⟨"ecommerce/payments/authorized",
        ⟨"PaymentAuthorized", timestamp, correlationId, .paymentAuthorized a b c d e⟩⟩) ∨
      (∃ a b c d, call = ⟨"ecommerce/orders/updated",
        ⟨"OrderUpdated", timestamp, correlationId, .orderUpdated a b c d⟩⟩) ∨
      (∃ a b c d e, call = ⟨"ecommerce/payments/failed",
        ⟨"PaymentFailed", timestamp, correlationId, .paymentFailed a b c d e⟩⟩) ∨
      (∃ a b c, call = ⟨"ecommerce/orders/cancelled",
        ⟨"OrderCancelled", timestamp, correlationId, .orderCancelled a b c⟩⟩) := by
  rcases h with ⟨rand, now, h⟩ | ⟨product, d, now, h⟩ | ⟨customer, orderId, n, select, now, p, h⟩ |
    ⟨p, r, now, h⟩
  · simp only [simulateCustomerRegistration, List.mem_singleton] at h
    exact ⟨_, _, Or.inl ⟨_, _, _, _, h⟩⟩
  · simp only [inventoryUpdateCalls] at h
    split_ifs at h <;>
      simp only [List.mem_append, List.mem_singleton, List.mem_cons, List.not_mem_nil,
        or_false] at h
    all_goals
      first
      | (rcases h with (h | h) | h
         · exact ⟨_, _, Or.inr (Or.inl ⟨_, _, _, _, _, h⟩)⟩
         · exact ⟨_, _, Or.inr (Or.inr (Or.inl ⟨_, _, _, _, h⟩))⟩
         · exact ⟨_, _, Or.inr (Or.inr (Or.inr (Or.inl ⟨_, _, _, h⟩)))⟩)
      | (rcases h with h | h
         · exact ⟨_, _, Or.inr (Or.inl ⟨_, _, _, _, _, h⟩)⟩
         · exact ⟨_, _, Or.inr (Or.inr (Or.inl ⟨_, _, _, _, h⟩))⟩)
      | (rcases h with h | h
         · exact ⟨_, _, Or.inr (Or.inl ⟨_, _, _, _, _, h⟩)⟩
         · exact ⟨_, _, Or.inr (Or.inr (Or.inr (Or.inl ⟨_, _, _, h⟩)))⟩)
      | exact ⟨_, _, Or.inr (Or.inl ⟨_, _, _, _, _, h⟩)⟩
  · unfold simulateOrderCreationWith at h
    split at h
    · exact absurd h (by simp)
    · split at h
      · exact absurd h (by simp)
      · simp only [Option.some.injEq, Prod.mk.injEq] at h
        exact ⟨_, _, Or.inr (Or.inr (Or.inr (Or.inr (Or.inl ⟨_, _, _, _, _, _, _, h.1.symm⟩))))⟩
  · by_cases hr : r > pointOne
    · rw [paymentFollowUp_success _ _ _ hr] at h
      simp only [List.mem_cons, List.mem_singleton, List.not_mem_nil, or_false] at h
      rcases h with h | h
      · exact ⟨_, _, Or.inr (Or.inr (Or.inr (Or.inr (Or.inr (Or.inl ⟨_, _, _, _, _, h⟩)))))⟩
      · exact ⟨_, _, Or.inr (Or.inr (Or.inr (Or.inr (Or.inr (Or.inr
          (Or.inl ⟨_, _, _, _, h⟩))))))⟩
    · rw [paymentFollowUp_failure _ _ _ hr] at h
      simp only [List.mem_cons, List.mem_singleton, List.not_mem_nil, or_false] at h
      rcases h with h | h
      · exact ⟨_, _, Or.inr (Or.inr (Or.inr (Or.inr (Or.inr (Or.inr (Or.inr
          (Or.inl ⟨_, _, _, _, _, h⟩)))))))⟩
      · exact ⟨_, _, Or.inr (Or.inr (Or.inr (Or.inr (Or.inr (Or.inr (Or.inr
          (Or.inr ⟨_, _, _, h⟩)))))))⟩

/-- From the run of the `console.log` statements to the result of
`processMessage`. -/
theorem render_of_runLogs {α : Type} [NatCast α] [IntCast α] (iso : Nat → String)
    (call : PublishCall α) (c : Category)
    (jsonParse : String → Except String (JsVal α)) (body : String)
    (properties : Option (List (String × String))) (timestamp : Nat)
    (hparse : jsonParse body = .ok (call.eventData.toJson iso))
    (hsel : selectCategory cascade call.topicName = some c)
    (hrun : runLogs (categoryLines call.topicName timestamp (call.eventData.toJson iso) ++
        [logText "-----------------------------------"]) =
      (headerOf c call.topicName timestamp call.eventData.eventType ++
        tailoredLines iso call.eventData.data ++ [[.text "-----------------------------------"]],
        none)) :
    (processMessage jsonParse
      { destination := call.topicName, binaryAttachment := some body,
        userPropertyMap := .ok properties } timestamp).thrown = none ∧
    ∃ c, selectCategory cascade call.topicName = some c ∧
      startsWith call.topicName c.base = true ∧
      (processMessage jsonParse
        { destination := call.topicName, binaryAttachment := some body,
          userPropertyMap := .ok properties } timestamp).lines =
        headerOf c call.topicName timestamp call.eventData.eventType ++
          tailoredLines iso call.eventData.data ++
          [[.text "-----------------------------------"]] ∧
      tailoredLines iso call.eventData.data ≠ [] ∧
      ∀ line ∈ (processMessage jsonParse
          { destination := call.topicName, binaryAttachment := some body,
            userPropertyMap := .ok properties } timestamp).lines,
        ∀ piece ∈ line, piece.isUndefined = false := by
  rw [processMessage_parsed jsonParse call.topicName body _ properties timestamp hparse, hrun]
  have hall : ∀ d, d ∈ cascade := by intro d; cases d <;> simp [cascade]
  refine ⟨rfl, c, hsel, (selectCategory_eq_some_iff cascade hall _ c).mp hsel, rfl, ?_,
    rendered_lines_defined iso c _ timestamp _ _⟩
  cases call.eventData.data <;> simp [tailoredLines]

/-- C19: for every envelope the simulator can publish, on the topic it is
published to, `processMessage` applied to the parsed JSON text of the envelope
raises no error, selects the category whose base path is a prefix of the topic,
and writes that category's header followed by the tailored lines of the leaf
topic and the separator; every property read is present (no line prints
`undefined`), `toFixed` is called on numbers and `items.length` on an array. -/
theorem C19_published_envelopes_render {α : Type} [Zero α] [Add α] [Mul α] [IntCast α]
    [NatCast α] (call : PublishCall α) (hpublishable : Publishable call)
    (iso : Nat → String) (jsonParse : String → Except String (JsVal α)) (body : String)
    (properties : Option (List (String × String))) (timestamp : Nat)
    (hparse : jsonParse body = .ok (call.eventData.toJson iso)) :
    (processMessage jsonParse
      { destination := call.topicName, binaryAttachment := some body,
        userPropertyMap := .ok properties } timestamp).thrown = none ∧
    ∃ c, selectCategory cascade call.topicName = some c ∧
      startsWith call.topicName c.base = true ∧
      (processMessage jsonParse
        { destination := call.topicName, binaryAttachment := some body,
          userPropertyMap := .ok properties } timestamp).lines =
        headerOf c call.topicName timestamp call.eventData.eventType ++
          tailoredLines iso call.eventData.data ++
          [[.text "-----------------------------------"]] ∧
      tailoredLines iso call.eventData.data ≠ [] ∧
      ∀ line ∈ (processMessage jsonParse
          { destination := call.topicName, binaryAttachment := some body,
            userPropertyMap := .ok properties } timestamp).lines,
        ∀ piece ∈ line, piece.isUndefined = false := by
  obtain ⟨ts, cid, h⟩ := publishable_shape call hpublishable
  rcases h with ⟨a, b, c, d, rfl⟩ | ⟨a, b, c, d, e, rfl⟩ | ⟨a, b, c, d, rfl⟩ | ⟨a, b, c, rfl⟩ |
    ⟨a, b, c, d, e, f, g, rfl⟩ | ⟨a, b, c, d, e, rfl⟩ | ⟨a, b, c, d, rfl⟩ |
    ⟨a, b, c, d, e, rfl⟩ | ⟨a, b, c, rfl⟩
  · exact render_of_runLogs iso _ .customers jsonParse body properties timestamp hparse
      rfl (by cases cid <;> rfl)
  · exact render_of_runLogs iso _ .inventory jsonParse body properties timestamp hparse
      rfl (by cases cid <;> rfl)
  · exact render_of_runLogs iso _ .inventory jsonParse body properties timestamp hparse
      rfl (by cases cid <;> rfl)
  · exact render_of_runLogs iso _ .inventory jsonParse body properties timestamp hparse
      rfl (by cases cid <;> rfl)
  · refine render_of_runLogs iso _ .orders jsonParse body properties timestamp hparse
      rfl ?_
    have hlen : ((e.map fun item => item.toJson).length : α) = (e.length : α) := by
      rw [List.length_map]
    cases cid
    · show (_, _) = (_, _)
      simp only [tailoredLines, ← hlen]
      rfl
    · show (_, _) = (_, _)
      simp only [tailoredLines, ← hlen]
      rfl
  · exact render_of_runLogs iso _ .payments jsonParse body properties timestamp hparse
      rfl (by cases cid <;> rfl)
  · exact render_of_runLogs iso _ .orders jsonParse body properties timestamp hparse
      rfl (by cases cid <;> rfl)
  · exact render_of_runLogs iso _ .payments jsonParse body properties timestamp hparse
      rfl (by cases cid <;> rfl)
  · exact render_of_runLogs iso _ .orders jsonParse body properties timestamp hparse
      rfl (by cases cid <;> rfl)

/-- Witness of C19: the `PaymentFailed` envelope of an order of amount 10. -/
theorem C19_published_envelopes_render_witness :
    Publishable
      ({ topicName := "ecommerce/payments/failed"
         eventData :=
           { eventType := "PaymentFailed"
             timestamp := 3
             correlationId := some "ord-1700000000000-1234"
             data := .paymentFailed "ord-1700000000000-1234" "c101" 10 "credit_card"
               "insufficient_funds" } } : PublishCall ℚ) ∧
    (processMessage
      (fun _ => .ok (Envelope.toJson (fun t => toString t)
        ({ eventType := "PaymentFailed"
           timestamp := 3
           correlationId := some "ord-1700000000000-1234"
           data := .paymentFailed "ord-1700000000000-1234" "c101" 10 "credit_card"
             "insufficient_funds" } : Envelope ℚ)))
      { destination := "ecommerce/payments/failed", binaryAttachment := some "json",
        userPropertyMap := .ok none } 7).thrown = none := by
  have hpub : Publishable
      ({ topicName := "ecommerce/payments/failed"
         eventData :=
           { eventType := "PaymentFailed"
             timestamp := 3
             correlationId := some "ord-1700000000000-1234"
             data := .paymentFailed "ord-1700000000000-1234" "c101" 10 "credit_card"
               "insufficient_funds" } } : PublishCall ℚ) := by
    right; right; right
    refine ⟨{ orderId := "ord-1700000000000-1234"
              customer := { id := "c101", name := "Alice Johnson", email := "alice@example.com" }
              totalAmount := 10, delayMs := 2000 }, 0, fun k => k, ?_⟩
    rw [paymentFollowUp_failure _ _ _ (by norm_num [pointOne])]
    simp
  exact ⟨hpub,
    (C19_published_envelopes_render _ hpub (fun t => toString t) _ "json" none 7 rfl).1⟩

/-- Witness of C14: the sample data with every draw equal to 1/2. -/
theorem C14_only_stock_of_drawn_product_changes_witness :
    ∃ out,
      PublisherState.simulateInventoryUpdate
        ({ products := products, customers := customers } : PublisherState ℚ)
        (fun _ => 1 / 2) (fun k => k) = some out ∧
      out.state.products.length = 5 ∧
      out.state.customers = customers := by
  obtain ⟨out, i, product, currentStock, change, rest, updated, hsim, -, -, -, hlen, -, -, -,
      -, -, -, -, hcustomers⟩ :=
    (C14_only_stock_of_drawn_product_changes
      ({ products := products, customers := customers } : PublisherState ℚ)
      (fun _ => 1 / 2) (fun k => k) (by simp [products]) (by simp [customers])
      (fun _ => ⟨by norm_num, by norm_num⟩) (by simp [products, customers])
      (fun _ => isDouble_half)).1
  exact ⟨out, hsim, hlen, hcustomers⟩

end EcommerceMesh
